import Mathlib

/-!
Shallow embedding of the robot TCP server (src/server.py).

Conventions used throughout:
* Inbound and outbound protocol data are `List Char`; the two-byte message
  terminator 0x07 0x08 is explicit in the byte stream.
* The network peer is a value of `Net σ`: `recvChunk` yields the chunk the
  next `recv(128)` call returns (`none` when no data will arrive, which in
  the real server means blocking until the socket timeout fires) and
  `sendMsg` lets the environment react to an outbound message.
* Python exceptions are constructors of `PyErr`; a session computation ends
  in `Res.ok`, `Res.err` (a raised exception) or `Res.blocked` (a read that
  would block with no data left, i.e. a socket timeout).
* Loops and the recursion in `get_message` are given explicit fuel; running
  out of fuel also yields `Res.blocked`.
* `settimeout` calls and logging are not modeled.
-/

deriving instance DecidableEq for Except

namespace RobotServer

/-- Python exceptions raised by the modeled code: the three server exception
classes plus the builtin exceptions that can escape the helpers. -/
inductive PyErr where
  | loginFailed
  | syntaxError
  | logicError
  | valueError
  | runtimeError
  deriving DecidableEq

/-- The network environment: how `recv` and `send` behave. -/
structure Net (σ : Type) where
  recvChunk : σ → Option (List Char × σ)
  sendMsg : List Char → σ → σ

/-- Per-connection state: the unparsed byte buffer (`self.buffer`), the
environment state, the log of messages the server sent (terminator left
implicit), and a count of executed `recv` calls. -/
structure St (σ : Type) where
  buffer : List Char
  conn : σ
  sent : List (List Char)
  reads : Nat
  deriving DecidableEq

/-- Result of running a session computation. -/
inductive Res (σ : Type) (α : Type) where
  | ok : α → St σ → Res σ α
  | err : PyErr → St σ → Res σ α
  | blocked : St σ → Res σ α
  deriving DecidableEq

/-- Session computations: state transformers over `St σ`. -/
def M (σ : Type) (α : Type) : Type := St σ → Res σ α

/-- Return. -/
def mret {σ α : Type} (a : α) : M σ α := fun st => Res.ok a st

/-- Sequencing; exceptions and blocking propagate. -/
def mbind {σ α β : Type} (x : M σ α) (f : α → M σ β) : M σ β := fun st =>
  match x st with
  | Res.ok a st1 => f a st1
  | Res.err e st1 => Res.err e st1
  | Res.blocked st1 => Res.blocked st1

/-- Lift a pure, possibly raising computation into the session monad. -/
def liftE {σ α : Type} (e : Except PyErr α) : M σ α := fun st =>
  match e with
  | Except.ok a => Res.ok a st
  | Except.error er => Res.err er st

/-- The state a finished computation left behind. -/
def resSt {σ α : Type} : Res σ α → St σ
  | Res.ok _ st => st
  | Res.err _ st => st
  | Res.blocked st => st

/-- The value of a successfully finished computation. -/
def resVal {σ α : Type} : Res σ α → Option α
  | Res.ok a _ => some a
  | Res.err _ _ => none
  | Res.blocked _ => none

/-! ### Constants of server.py -/

def SERVER_KEY : Nat := 54621
def CLIENT_KEY : Nat := 45328

def SERVER_MOVE : List Char := "102 MOVE".data
def SERVER_TURN_LEFT : List Char := "103 TURN LEFT".data
def SERVER_TURN_RIGHT : List Char := "104 TURN RIGHT".data
def SERVER_PICK_UP : List Char := "105 GET MESSAGE".data
def SERVER_LOGOUT : List Char := "106 LOGOUT".data
def SERVER_OK : List Char := "200 OK".data
def SERVER_LOGIN_FAILED : List Char := "300 LOGIN FAILED".data
def SERVER_SYNTAX_ERROR : List Char := "301 SYNTAX ERROR".data
def SERVER_LOGIC_ERROR : List Char := "302 LOGIC ERROR".data

def CLIENT_OK : List Char := "OK".data
def CLIENT_RECHARGING : List Char := "RECHARGING".data
def CLIENT_FULL_POWER : List Char := "FULL POWER".data

def CLIENT_USERNAME_MAX_LENGTH : Nat := 12
def CLIENT_CONFIRMATION_MAX_LENGTH : Nat := 7
def CLIENT_OK_MAX_LENGTH : Nat := 12
def CLIENT_RECHARGING_MAX_LENGTH : Nat := 12
def CLIENT_FULL_POWER_MAX_LENGTH : Nat := 12
def CLIENT_MESSAGE_MAX_LENGTH : Nat := 100

def CONFIRMATION_NUMBER_MAX_DIGITS : Nat := 5
def MAX_VALUE : Nat := 65536

def UP : Int := -1
def DOWN : Int := -2
def LEFT : Int := 3
def RIGHT : Int := 4

def DESTINATION_SQUARE : Int × Int := (-2, 2)

/-- The two-byte message terminator 0x07 0x08 (BEL, BS). -/
def TERMINATOR : List Char := ['\x07', '\x08']

/-! ### Python string and int primitives used by server.py -/

/-- `s.partition("\x07\x08")`, keeping only the information the server uses:
`some (before, after)` at the first occurrence of the terminator, `none`
when the terminator does not occur in `s`. -/
def partitionTerm : List Char → Option (List Char × List Char)
  | [] => none
  | c :: rest =>
    if c = '\x07' ∧ rest.head? = some '\x08' then
      some ([], rest.tail)
    else
      match partitionTerm rest with
      | some p => some (c :: p.1, p.2)
      | none => none

/-- `"\x07\x08" in s`. -/
def hasTerm (s : List Char) : Bool := (partitionTerm s).isSome

/-- Python whitespace characters relevant to ASCII strings (the set used by
`str.split()` with no separator and by `int()` stripping). -/
def isPySpace (c : Char) : Bool :=
  c = ' ' || c = '\t' || c = '\n' || c = '\r' || c = '\x0b' || c = '\x0c'

/-- `s.split(maxsplit = 2)` with the default whitespace separator: at most
two splits on whitespace runs, leading whitespace skipped, the final field
kept verbatim (including trailing whitespace). -/
def pySplit2 (s : List Char) : List (List Char) :=
  let r0 := s.dropWhile isPySpace
  if r0 = [] then []
  else
    let t1 := r0.takeWhile (fun c => !isPySpace c)
    let r1 := (r0.dropWhile (fun c => !isPySpace c)).dropWhile isPySpace
    if r1 = [] then [t1]
    else
      let t2 := r1.takeWhile (fun c => !isPySpace c)
      let r2 := (r1.dropWhile (fun c => !isPySpace c)).dropWhile isPySpace
      if r2 = [] then [t1, t2]
      else [t1, t2, r2]

/-- Value of an ASCII decimal digit. -/
def charDigit (c : Char) : Option Nat :=
  if c.isDigit then some (c.toNat - 48) else none

/-- Digit run of a Python int literal after the first digit: digits with
single underscores allowed between digits. -/
def pyDigitsCore : List Char → Nat → Option Nat
  | [], acc => some acc
  | '_' :: [], _ => none
  | '_' :: c :: rest, acc =>
    match charDigit c with
    | some d => pyDigitsCore rest (acc * 10 + d)
    | none => none
  | c :: rest, acc =>
    match charDigit c with
    | some d => pyDigitsCore rest (acc * 10 + d)
    | none => none

/-- Digit run of a Python int literal: must start with a digit. -/
def pyDigits : List Char → Option Nat
  | [] => none
  | c :: rest =>
    match charDigit c with
    | some d => pyDigitsCore rest d
    | none => none

/-- Python `int(s)`: strip surrounding whitespace, optional sign, decimal
digits possibly separated by single underscores; `none` models the
`ValueError` raised on any other input. -/
def pyInt (s : List Char) : Option Int :=
  let t := ((s.dropWhile isPySpace).reverse.dropWhile isPySpace).reverse
  match t with
  | '+' :: rest => (pyDigits rest).map (fun n => (n : Int))
  | '-' :: rest => (pyDigits rest).map (fun n => -(n : Int))
  | _ => (pyDigits t).map (fun n => (n : Int))

/-- Python `str(n)` for a natural number. -/
def natChars (n : Nat) : List Char := Nat.toDigits 10 n

/-- Python `str(n)` for an integer. -/
def intChars (n : Int) : List Char :=
  if n < 0 then '-' :: natChars n.natAbs else natChars n.natAbs

/-! ### The server code (src/server.py, class ClientConnection) -/

/-- `calculate_hash`: `(sum(map(lambda c: ord(c), string), 0) * 1000) % MAX_VALUE`. -/
def calculate_hash (string : List Char) : Nat :=
  (string.foldl (fun acc c => acc + c.toNat) 0 * 1000) % MAX_VALUE

/-- The length test of `get_message`'s while loop, exactly as written in the
source: with `remainder = max_length - len(buffer)`, fail when
`("\x07" in buffer and remainder <= 0) or (not ("\x07" in buffer) and
remainder <= 0)`. -/
def preReadFault (max_length : Nat) (buffer : List Char) : Bool :=
  (buffer.contains '\x07' && decide ((max_length : Int) - (buffer.length : Int) ≤ 0))
    || (!buffer.contains '\x07' && decide ((max_length : Int) - (buffer.length : Int) ≤ 0))

/-- `get_message(max_length)`.  The `while` loop becomes fuel recursion: each
iteration examines the buffer, raises the pre-read syntax fault, or reads one
chunk.  Once a terminator is present, `parse_buffer` (the `partition` call)
extracts the first message.  The body of `recharging()` — read the next
message with the `FULL POWER` cap, demand exactly `FULL POWER`, then resume
reading the originally requested message — is inlined at its only call site;
its `settimeout` switches are not modeled. -/
def get_message {σ : Type} (net : Net σ) : Nat → Nat → M σ (List Char)
  | 0, _ => fun st => Res.blocked st
  | Nat.succ fuel, max_length => fun st =>
    match partitionTerm st.buffer with
    | some msgRest =>
      let st1 : St σ := { st with buffer := msgRest.2 }
      let msg := msgRest.1
      if msg = CLIENT_RECHARGING then
        match get_message net fuel CLIENT_FULL_POWER_MAX_LENGTH st1 with
        | Res.ok m st2 =>
          if m = CLIENT_FULL_POWER then get_message net fuel max_length st2
          else Res.err PyErr.logicError st2
        | Res.err e st2 => Res.err e st2
        | Res.blocked st2 => Res.blocked st2
      else if (msg.length : Int) > (max_length : Int) - 2 then
        Res.err PyErr.syntaxError st1
      else
        Res.ok msg st1
    | none =>
      if preReadFault max_length st.buffer then
        Res.err PyErr.syntaxError st
      else
        match net.recvChunk st.conn with
        | some chunkConn =>
          get_message net fuel max_length
            { st with buffer := st.buffer ++ chunkConn.1,
                      conn := chunkConn.2, reads := st.reads + 1 }
        | none => Res.blocked st

/-- `send_message(message)`: the terminator is appended on the wire; we log
the message content and let the environment react. -/
def send_message {σ : Type} (net : Net σ) (message : List Char) : M σ Unit := fun st =>
  Res.ok () { st with sent := st.sent ++ [message], conn := net.sendMsg message st.conn }

/-- `parse_number`: raise `ServerSyntaxError` when the string contains a
space, otherwise Python `int()` (whose failure is an uncaught `ValueError`). -/
def parse_number (string_number : List Char) : Except PyErr Int :=
  if string_number.contains ' ' then Except.error PyErr.syntaxError
  else
    match pyInt string_number with
    | some n => Except.ok n
    | none => Except.error PyErr.valueError

/-- `authenticate`: read the username, send the server code, read and parse
the confirmation, compare with the client code. -/
def authenticate {σ : Type} (net : Net σ) (fuel : Nat) : M σ Unit :=
  mbind (get_message net fuel CLIENT_USERNAME_MAX_LENGTH) (fun username =>
    let username_hash := calculate_hash username
    let server_code := (username_hash + SERVER_KEY) % MAX_VALUE
    mbind (send_message net (natChars server_code)) (fun _ =>
      let client_code := (username_hash + CLIENT_KEY) % MAX_VALUE
      mbind (mbind (get_message net fuel CLIENT_CONFIRMATION_MAX_LENGTH)
                   (fun m => liftE (parse_number m))) (fun client_confirmation =>
        if (client_code : Int) = client_confirmation then
          send_message net SERVER_OK
        else
          fun st => Res.err PyErr.loginFailed st)))

/-- Body of the `try` block of `parse_client_ok`: unpack
`client_ok.split(maxsplit 2)` into three fields (a `ValueError` otherwise),
demand the first is `OK` (a bare `raise`, i.e. `RuntimeError`, otherwise),
then parse both numbers. -/
def parse_client_ok_body (client_ok : List Char) : Except PyErr (Int × Int) :=
  match pySplit2 client_ok with
  | [ok, num_1, num_2] =>
    if ok = CLIENT_OK then
      match parse_number num_1 with
      | Except.ok a =>
        match parse_number num_2 with
        | Except.ok b => Except.ok (a, b)
        | Except.error e => Except.error e
      | Except.error e => Except.error e
    else Except.error PyErr.runtimeError
  | _ => Except.error PyErr.valueError

/-- `parse_client_ok`: any exception raised in the body is caught and
re-raised as `ServerSyntaxError`. -/
def parse_client_ok (client_ok : List Char) : Except PyErr (Int × Int) :=
  match parse_client_ok_body client_ok with
  | Except.ok v => Except.ok v
  | Except.error _ => Except.error PyErr.syntaxError

/-- `move_forward(current_coords)`: keep sending `102 MOVE` and reading a
position report until the reported coordinates differ from `current_coords`. -/
def move_forward {σ : Type} (net : Net σ) : Nat → Int × Int → M σ (Int × Int)
  | 0, _ => fun st => Res.blocked st
  | Nat.succ fuel, current_coords =>
    mbind (send_message net SERVER_MOVE) (fun _ =>
      mbind (mbind (get_message net (Nat.succ fuel) CLIENT_OK_MAX_LENGTH)
                   (fun m => liftE (parse_client_ok m))) (fun new_coords =>
        if new_coords = current_coords then move_forward net fuel current_coords
        else mret new_coords))

/-- `turn_left`. -/
def turn_left {σ : Type} (net : Net σ) (fuel : Nat) : M σ (Int × Int) :=
  mbind (send_message net SERVER_TURN_LEFT) (fun _ =>
    mbind (get_message net fuel CLIENT_OK_MAX_LENGTH)
          (fun m => liftE (parse_client_ok m)))

/-- `turn_right`. -/
def turn_right {σ : Type} (net : Net σ) (fuel : Nat) : M σ (Int × Int) :=
  mbind (send_message net SERVER_TURN_RIGHT) (fun _ =>
    mbind (get_message net fuel CLIENT_OK_MAX_LENGTH)
          (fun m => liftE (parse_client_ok m)))

/-- `get_direction_to_dest(current, destination)`. -/
def get_direction_to_dest (current destination : Int × Int) : Int :=
  if destination.1 > current.1 then RIGHT
  else if destination.1 < current.1 then LEFT
  else if destination.2 > current.2 then UP
  else DOWN

/-- `turn_to_direction(direction, direction_to_dest)`: the sign-trick
opposite test, then the four explicit cases; returns the new tracked
direction. -/
def turn_to_direction {σ : Type} (net : Net σ) (fuel : Nat)
    (direction direction_to_dest : Int) : M σ Int :=
  mbind
    (if direction = direction_to_dest then mret ()
     else if (0 < direction ∧ 0 < direction_to_dest) ∨
             (direction < 0 ∧ direction_to_dest < 0) then
       mbind (turn_left net fuel) (fun _ => mbind (turn_left net fuel) (fun _ => mret ()))
     else if direction = UP then
       (if direction_to_dest = LEFT then mbind (turn_left net fuel) (fun _ => mret ())
        else mbind (turn_right net fuel) (fun _ => mret ()))
     else if direction = DOWN then
       (if direction_to_dest = LEFT then mbind (turn_right net fuel) (fun _ => mret ())
        else mbind (turn_left net fuel) (fun _ => mret ()))
     else if direction = RIGHT then
       (if direction_to_dest = UP then mbind (turn_left net fuel) (fun _ => mret ())
        else mbind (turn_right net fuel) (fun _ => mret ()))
     else if direction = LEFT then
       (if direction_to_dest = UP then mbind (turn_right net fuel) (fun _ => mret ())
        else mbind (turn_left net fuel) (fun _ => mret ()))
     else mret ())
    (fun _ => mret direction_to_dest)

/-- `pick_message`. -/
def pick_message {σ : Type} (net : Net σ) (fuel : Nat) : M σ (List Char) :=
  mbind (send_message net SERVER_PICK_UP) (fun _ =>
    get_message net fuel CLIENT_MESSAGE_MAX_LENGTH)

/-- `logout`. -/
def logout {σ : Type} (net : Net σ) : M σ Unit :=
  send_message net SERVER_LOGOUT

/-- Inner `for i in range(-2, 3)` loop of `search_square`: pick at the
current cell, stop (after `logout`) on a non-empty message, move forward
while `i < 2`.  Returns `none` when the sweep ended early, otherwise the
coordinates after the row. -/
def search_inner {σ : Type} (net : Net σ) (fuel : Nat) :
    List Int → Int × Int → M σ (Option (Int × Int))
  | [], coords => mret (some coords)
  | i :: is, coords =>
    mbind (pick_message net fuel) (fun msg =>
      if msg ≠ [] then
        mbind (logout net) (fun _ => mret none)
      else
        mbind (if i < 2 then move_forward net fuel coords else mret coords)
              (fun coords2 => search_inner net fuel is coords2))

/-- Outer `for _ in range(-2, 3)` loop of `search_square` with the `direct`
flag and the unconditional row transition (turn, move one cell, turn). -/
def search_outer {σ : Type} (net : Net σ) (fuel : Nat) :
    List Int → Int → Int × Int → M σ Unit
  | [], _, _ => mret ()
  | _ :: rows, direct, coords =>
    mbind (search_inner net fuel [-2, -1, 0, 1, 2] coords) (fun r =>
      match r with
      | none => mret ()
      | some coords1 =>
        if direct = 0 then
          mbind (turn_right net fuel) (fun _ =>
            mbind (move_forward net fuel coords1) (fun coords2 =>
              mbind (turn_right net fuel) (fun _ =>
                search_outer net fuel rows 1 coords2)))
        else
          mbind (turn_left net fuel) (fun _ =>
            mbind (move_forward net fuel coords1) (fun coords2 =>
              mbind (turn_left net fuel) (fun _ =>
                search_outer net fuel rows 0 coords2))))

/-- `search_square(start_direction)`: turn to face `RIGHT`, then the 5 × 5
serpentine starting from `DESTINATION_SQUARE`. -/
def search_square {σ : Type} (net : Net σ) (fuel : Nat) (start_direction : Int) : M σ Unit :=
  mbind (turn_to_direction net fuel start_direction RIGHT) (fun _ =>
    search_outer net fuel [-2, -1, 0, 1, 2] 0 DESTINATION_SQUARE)

/-- The `while current_coords != DESTINATION_SQUARE` loop of
`find_and_search_square`, with fuel.  Returns the tracked direction and the
final coordinates. -/
def reach_loop {σ : Type} (net : Net σ) : Nat → Int → Int × Int → M σ (Int × (Int × Int))
  | 0, _, _ => fun st => Res.blocked st
  | Nat.succ fuel, direction, current_coords =>
    if current_coords = DESTINATION_SQUARE then mret (direction, current_coords)
    else
      mbind (turn_to_direction net fuel direction
              (get_direction_to_dest current_coords DESTINATION_SQUARE)) (fun direction2 =>
        mbind (move_forward net fuel current_coords) (fun coords2 =>
          reach_loop net fuel direction2 coords2))

/-- `find_and_search_square`: preparatory `TURN LEFT` to learn the starting
coordinates, one probing `move_forward` to infer the direction, the routing
loop toward `DESTINATION_SQUARE`, then the sweep. -/
def find_and_search_square {σ : Type} (net : Net σ) (fuel : Nat) : M σ Unit :=
  mbind (send_message net SERVER_TURN_LEFT) (fun _ =>
    mbind (mbind (get_message net fuel CLIENT_OK_MAX_LENGTH)
                 (fun m => liftE (parse_client_ok m))) (fun start_coords =>
      mbind (move_forward net fuel start_coords) (fun current_coords =>
        let direction := get_direction_to_dest start_coords current_coords
        mbind (reach_loop net fuel direction current_coords) (fun dc =>
          search_square net fuel dc.1))))

/-- How a session ends, as seen from `run`'s `try/except/finally`. -/
inductive Exit where
  | normal
  | timeoutSilent
  | unhandled : PyErr → Exit
  deriving DecidableEq

/-- `run`: authenticate then navigate and sweep; the three server exceptions
are mapped to their terminal messages, a socket timeout (`Res.blocked`) is
silent, any other exception escapes the thread.  In every case the
connection is closed; the result is the full list of sent messages and the
exit kind. -/
def runSession {σ : Type} (net : Net σ) (fuel : Nat) (conn : σ) :
    List (List Char) × Exit :=
  match mbind (authenticate net fuel) (fun _ => find_and_search_square net fuel)
        { buffer := [], conn := conn, sent := [], reads := 0 } with
  | Res.ok _ st => (st.sent, Exit.normal)
  | Res.blocked st => (st.sent, Exit.timeoutSilent)
  | Res.err PyErr.loginFailed st => (st.sent ++ [SERVER_LOGIN_FAILED], Exit.normal)
  | Res.err PyErr.syntaxError st => (st.sent ++ [SERVER_SYNTAX_ERROR], Exit.normal)
  | Res.err PyErr.logicError st => (st.sent ++ [SERVER_LOGIC_ERROR], Exit.normal)
  | Res.err e st => (st.sent, Exit.unhandled e)

/-! ### Network environments used in the theorems -/

/-- A network that replays a fixed list of chunks (one per `recv` call) and
ignores outbound traffic.  This models an arbitrary inbound byte stream. -/
def listNet : Net (List (List Char)) where
  recvChunk := fun s =>
    match s with
    | [] => none
    | c :: cs => some (c, cs)
  sendMsg := fun _ s => s

/-- Initial state over a chunk list. -/
def chunkSt (chunks : List (List Char)) : St (List (List Char)) :=
  { buffer := [], conn := chunks, sent := [], reads := 0 }

/-- A compliant robot used to close the loop for the navigation claims: it
tracks its true position and facing, executes `MOVE`/`TURN` commands, answers
`GET MESSAGE` from a table of cell contents, and records which cells it was
polled at and every position it moved onto.  (Environment model, not part of
the server source.) -/
structure Robot where
  pos : Int × Int
  dir : Int
  cells : List ((Int × Int) × List Char)
  pending : List Char
  trail : List (Int × Int)
  picked : List (Int × Int)
  deriving DecidableEq

/-- Unit step of a facing, grid convention of the spec: +x = East, +y = North. -/
def dirDelta (d : Int) : Int × Int :=
  if d = UP then (0, 1)
  else if d = DOWN then (0, -1)
  else if d = LEFT then (-1, 0)
  else (1, 0)

/-- Facing after a left (counterclockwise) turn. -/
def turnLeftDir (d : Int) : Int :=
  if d = UP then LEFT
  else if d = LEFT then DOWN
  else if d = DOWN then RIGHT
  else UP

/-- Facing after a right (clockwise) turn. -/
def turnRightDir (d : Int) : Int :=
  if d = UP then RIGHT
  else if d = RIGHT then DOWN
  else if d = DOWN then LEFT
  else UP

/-- Content of a cell (empty when absent from the table). -/
def cellAt (cells : List ((Int × Int) × List Char)) (p : Int × Int) : List Char :=
  match cells.find? (fun e => decide (e.1 = p)) with
  | some e => e.2
  | none => []

/-- A well-formed `OK x y` position report. -/
def okReplyFor (p : Int × Int) : List Char :=
  "OK ".data ++ intChars p.1 ++ ' ' :: intChars p.2

/-- The robot's reaction to one outbound server message. -/
def robotSend (m : List Char) (r : Robot) : Robot :=
  if m = SERVER_MOVE then
    let p : Int × Int := (r.pos.1 + (dirDelta r.dir).1, r.pos.2 + (dirDelta r.dir).2)
    { r with pos := p, pending := r.pending ++ okReplyFor p ++ TERMINATOR,
             trail := r.trail ++ [p] }
  else if m = SERVER_TURN_LEFT then
    { r with dir := turnLeftDir r.dir,
             pending := r.pending ++ okReplyFor r.pos ++ TERMINATOR }
  else if m = SERVER_TURN_RIGHT then
    { r with dir := turnRightDir r.dir,
             pending := r.pending ++ okReplyFor r.pos ++ TERMINATOR }
  else if m = SERVER_PICK_UP then
    { r with pending := r.pending ++ cellAt r.cells r.pos ++ TERMINATOR,
             picked := r.picked ++ [r.pos] }
  else r

/-- Network backed by a compliant robot; each `recv` returns every pending
byte (replies are far shorter than 128 bytes). -/
def robotNet : Net Robot where
  recvChunk := fun r =>
    match r.pending with
    | [] => none
    | c :: cs => some (c :: cs, { r with pending := [] })
  sendMsg := robotSend

/-- Initial state over a robot at position `p`, facing `d`, with cell
contents `cells`. -/
def robotSt (p : Int × Int) (d : Int) (cells : List ((Int × Int) × List Char)) : St Robot :=
  { buffer := [], conn := { pos := p, dir := d, cells := cells,
                            pending := [], trail := [], picked := [] },
    sent := [], reads := 0 }

/-! ### Helper lemmas about the framing reader -/

/-- Appending the terminator (and anything after it) to a terminator-free
string frames exactly that string. -/
theorem partitionTerm_append (u r : List Char) (h : hasTerm u = false) :
    partitionTerm (u ++ '\x07' :: '\x08' :: r) = some (u, r) := by
  induction u with
  | nil => simp [partitionTerm]
  | cons c u ih =>
    have hcond : ¬(c = '\x07' ∧ u.head? = some '\x08') := by
      intro hc
      simp [hasTerm, partitionTerm, hc] at h
    have huterm : hasTerm u = false := by
      simp only [hasTerm, partitionTerm, if_neg hcond] at h
      cases hp : partitionTerm u with
      | none => simp [hasTerm, hp]
      | some p => rw [hp] at h; simp at h
    have hcond2 : ¬(c = '\x07' ∧ (u ++ '\x07' :: '\x08' :: r).head? = some '\x08') := by
      cases u with
      | nil =>
        intro hc
        exact absurd (Option.some.inj hc.2) (by decide)
      | cons d u' => simpa using hcond
    simp only [List.cons_append, partitionTerm, List.append_eq, if_neg hcond2, ih huterm]

/-- On an empty buffer the pre-read length test passes for any positive cap. -/
theorem preReadFault_nil (max : Nat) (h : 0 < max) : preReadFault max [] = false := by
  simp [preReadFault]
  omega

/-- The pre-read test of `get_message` fires exactly when the buffer already
holds `max_length` bytes — the two disjuncts of the source condition coincide. -/
theorem preReadFault_eq (max : Nat) (b : List Char) :
    preReadFault max b = decide ((max : Int) ≤ (b.length : Int)) := by
  simp only [preReadFault]
  cases hc : b.contains '\x07' <;> simp

/-- Once the buffer holds `max_length` bytes with no complete terminator,
`get_message` raises a syntax fault at once, leaving the state (in
particular the read counter) untouched — for every environment. -/
theorem gm_prefault {σ : Type} (net : Net σ) (fuel max : Nat) (st : St σ)
    (h1 : partitionTerm st.buffer = none)
    (h2 : (max : Int) ≤ (st.buffer.length : Int)) :
    get_message net (fuel + 1) max st = Res.err PyErr.syntaxError st := by
  have hf : preReadFault max st.buffer = true := by
    rw [preReadFault_eq]
    simpa using h2
  simp [get_message, h1, hf]

/-- A terminator-free, short-enough, non-`RECHARGING` message arriving as
one chunk on an empty buffer is delivered as-is by `get_message`. -/
theorem gm_delivers {σ : Type} (net : Net σ) (fuel max : Nat) (u : List Char)
    (conn conn2 : σ) (sent : List (List Char)) (reads : Nat)
    (hr : net.recvChunk conn = some (u ++ TERMINATOR, conn2))
    (ht : hasTerm u = false)
    (hrech : u ≠ CLIENT_RECHARGING)
    (hlen : (u.length : Int) ≤ (max : Int) - 2)
    (hmax : 0 < max) :
    get_message net (fuel + 2) max { buffer := [], conn := conn, sent := sent, reads := reads }
      = Res.ok u { buffer := [], conn := conn2, sent := sent, reads := reads + 1 } := by
  have hp : partitionTerm (u ++ TERMINATOR) = some (u, []) := by
    simpa [TERMINATOR] using partitionTerm_append u [] ht
  have hnl : ¬((u.length : Int) > (max : Int) - 2) := by omega
  simp [get_message, partitionTerm, preReadFault_nil max hmax, hr, hp, hrech, hnl]

/-- A terminator-free, non-`RECHARGING` message longer than the content cap
arriving as one chunk on an empty buffer raises the post-framing syntax
fault. -/
theorem gm_toolong {σ : Type} (net : Net σ) (fuel max : Nat) (u : List Char)
    (conn conn2 : σ) (sent : List (List Char)) (reads : Nat)
    (hr : net.recvChunk conn = some (u ++ TERMINATOR, conn2))
    (ht : hasTerm u = false)
    (hrech : u ≠ CLIENT_RECHARGING)
    (hlen : (max : Int) - 2 < (u.length : Int))
    (hmax : 0 < max) :
    get_message net (fuel + 2) max { buffer := [], conn := conn, sent := sent, reads := reads }
      = Res.err PyErr.syntaxError { buffer := [], conn := conn2, sent := sent, reads := reads + 1 } := by
  have hp : partitionTerm (u ++ TERMINATOR) = some (u, []) := by
    simpa [TERMINATOR] using partitionTerm_append u [] ht
  have hnl : (u.length : Int) > (max : Int) - 2 := hlen
  simp [get_message, partitionTerm, preReadFault_nil max hmax, hr, hp, hrech, hnl]

/-- `get_message` never hands `RECHARGING` to its caller, whatever the
environment sends. -/
theorem gm_never_recharging {σ : Type} (net : Net σ) :
    ∀ (fuel max : Nat) (st : St σ) (msg : List Char) (st' : St σ),
      get_message net fuel max st = Res.ok msg st' → msg ≠ CLIENT_RECHARGING := by
  intro fuel
  induction fuel with
  | zero =>
    intro max st msg st' h
    simp [get_message] at h
  | succ f ih =>
    intro max st msg st' h
    simp only [get_message] at h
    split at h
    · split at h
      · split at h
        · split at h
          · exact ih _ _ _ _ h
          · exact absurd h (by simp)
        · exact absurd h (by simp)
        · exact absurd h (by simp)
      · split at h
        · exact absurd h (by simp)
        · rename_i hmsg _
          cases h
          exact hmsg
    · split at h
      · exact absurd h (by simp)
      · split at h
        · exact ih _ _ _ _ h
        · exact absurd h (by simp)

/-- One read iteration of `get_message`'s while loop. -/
theorem gm_recv_step {σ : Type} (net : Net σ) (fuel max : Nat) (st : St σ)
    (ch : List Char) (c2 : σ)
    (hp : partitionTerm st.buffer = none)
    (hl : (st.buffer.length : Int) < (max : Int))
    (hr : net.recvChunk st.conn = some (ch, c2)) :
    get_message net (fuel + 1) max st
      = get_message net fuel max
          { st with buffer := st.buffer ++ ch, conn := c2, reads := st.reads + 1 } := by
  have hf : preReadFault max st.buffer = false := by
    rw [preReadFault_eq]
    simp
    omega
  simp [get_message, hp, hf, hr]

/-- The recharge branch of `get_message`: when the framed message is
`RECHARGING`, the reader performs the inlined `recharging()` body. -/
theorem gm_rech_step {σ : Type} (net : Net σ) (fuel max : Nat) (st : St σ)
    (rest : List Char)
    (hp : partitionTerm st.buffer = some (CLIENT_RECHARGING, rest)) :
    get_message net (fuel + 1) max st
      = (match get_message net fuel CLIENT_FULL_POWER_MAX_LENGTH { st with buffer := rest } with
         | Res.ok m st2 =>
           if m = CLIENT_FULL_POWER then get_message net fuel max st2
           else Res.err PyErr.logicError st2
         | Res.err e st2 => Res.err e st2
         | Res.blocked st2 => Res.blocked st2) := by
  simp [get_message, hp]

/-! ### Claim C1 -/

/-- Buffer used for the C1 counterexample: 11 bytes, one short of the cap 12. -/
def bufC1 : List Char := "aaaaaaaaaaa".data

/-- State used for the C1 counterexample: the buffer has reached
`max_len - 1` bytes, none of them the first terminator byte, and no further
data is available. -/
def stC1 : St (List (List Char)) :=
  { buffer := bufC1, conn := [], sent := [], reads := 0 }

/-- Claim C1, counterexample.  With cap `max_len = 12` and an accumulated
buffer of `max_len - 1 = 11` bytes containing no 0x07 byte, the claim says
the reader raises a syntax fault before any further read; the code instead
goes back to `recv` and, with no data available, blocks (waits for more
data) rather than raising. -/
theorem C1_counterexample :
    bufC1.length = 12 - 1 ∧ bufC1.contains '\x07' = false ∧
    get_message listNet 6 12 stC1 = Res.blocked stC1 := by
  refine ⟨by decide, by decide, by decide⟩

/-- Claim C1, amended: the framing reader raises a syntax fault before any
further read only once the accumulated buffer holds `max_len` bytes with no
complete terminator (at `max_len - 1` bytes it still performs another read;
an over-long message is then caught by the post-framing length check).  The
conclusion holds for every environment and leaves the state — in particular
the count of performed reads — untouched: no read happens before the fault. -/
theorem C1_amended {σ : Type} (net : Net σ) (fuel max : Nat) (st : St σ)
    (h1 : partitionTerm st.buffer = none)
    (h2 : (max : Int) ≤ (st.buffer.length : Int)) :
    get_message net (fuel + 1) max st = Res.err PyErr.syntaxError st :=
  gm_prefault net fuel max st h1 h2

/-- Buffer of 12 bytes for the C1 witness. -/
def bufC1w : List Char := "aaaaaaaaaaaa".data

/-- State for the C1 witness. -/
def stC1w : St (List (List Char)) :=
  { buffer := bufC1w, conn := [], sent := [], reads := 0 }

/-- Witness for C1_amended at cap 12 with a 12-byte terminator-free buffer. -/
theorem C1_witness :
    partitionTerm stC1w.buffer = none ∧
    ((12 : Nat) : Int) ≤ (stC1w.buffer.length : Int) ∧
    get_message listNet (3 + 1) 12 stC1w = Res.err PyErr.syntaxError stC1w :=
  ⟨by decide, by decide, C1_amended listNet 3 12 stC1w (by decide) (by decide)⟩

/-- One read iteration of `get_message` on the replayed-chunk network with
an empty buffer: consume the next chunk. -/
theorem gm_recv_chunk (fuel max : Nat) (ch : List Char) (rest : List (List Char))
    (sent : List (List Char)) (reads : Nat) (hmax : 0 < max) :
    get_message listNet (fuel + 1) max
        { buffer := [], conn := ch :: rest, sent := sent, reads := reads }
      = get_message listNet fuel max
        { buffer := ch, conn := rest, sent := sent, reads := reads + 1 } := by
  rw [gm_recv_step listNet fuel max
      { buffer := [], conn := ch :: rest, sent := sent, reads := reads }
      ch rest rfl (by exact_mod_cast hmax) rfl]
  simp

/-- The replayed-chunk network ignores outbound messages. -/
theorem listNet_sendMsg (m : List Char) (s : List (List Char)) :
    listNet.sendMsg m s = s := rfl

/-! ### Claim C2 -/

/-- Final state of a successful handshake for username `u`. -/
def authAcceptSt (u : List Char) : St (List (List Char)) :=
  { buffer := [], conn := [],
    sent := [natChars ((calculate_hash u + SERVER_KEY) % MAX_VALUE), SERVER_OK],
    reads := 2 }

/-- Claim C2: for a username `u` accepted by the framing layer (content
within the code's cap, no terminator inside, not the literal `RECHARGING`),
with `H = calculate_hash u = (Σ ord(ci) × 1000) mod 65536`, the server sends
`(H + 54621) mod 65536`, and when the client's confirmation message parses
to exactly `(H + 45328) mod 65536` the handshake accepts and sends `200 OK`. -/
theorem C2_round_trip (fuel : Nat) (u c : List Char)
    (hu1 : hasTerm u = false) (hu2 : u ≠ CLIENT_RECHARGING) (hu3 : u.length ≤ 10)
    (hc1 : hasTerm c = false) (hc3 : c.length ≤ 5)
    (hparse : parse_number c =
      Except.ok (((calculate_hash u + CLIENT_KEY) % MAX_VALUE : Nat) : Int)) :
    authenticate listNet (fuel + 2) (chunkSt [u ++ TERMINATOR, c ++ TERMINATOR])
      = Res.ok () (authAcceptSt u) := by
  have hc2 : c ≠ CLIENT_RECHARGING := by
    intro h
    rw [h] at hparse
    rw [show parse_number CLIENT_RECHARGING = Except.error PyErr.valueError from rfl] at hparse
    exact Except.noConfusion hparse
  have g1 := gm_delivers listNet fuel CLIENT_USERNAME_MAX_LENGTH u
      [u ++ TERMINATOR, c ++ TERMINATOR] [c ++ TERMINATOR] [] 0 rfl hu1 hu2
      (by simp only [CLIENT_USERNAME_MAX_LENGTH]; omega) (by decide)
  have g2 := gm_delivers listNet fuel CLIENT_CONFIRMATION_MAX_LENGTH c
      [c ++ TERMINATOR] [] [natChars ((calculate_hash u + SERVER_KEY) % MAX_VALUE)] 1
      rfl hc1 hc2 (by simp only [CLIENT_CONFIRMATION_MAX_LENGTH]; omega) (by decide)
  simp [authenticate, chunkSt, mbind, g1, g2, liftE, send_message, hparse,
        authAcceptSt, listNet_sendMsg]

/-- Username for the C2 witness. -/
def userW : List Char := "a".data

/-- Matching confirmation for the C2 witness:
`hash("a") = 97000 % 65536 = 31464`, client code `(31464 + 45328) % 65536 = 11256`. -/
def confW : List Char := "11256".data

/-- Witness for C2_round_trip on username `a`. -/
theorem C2_witness :
    hasTerm userW = false ∧ userW ≠ CLIENT_RECHARGING ∧ userW.length ≤ 10 ∧
    hasTerm confW = false ∧ confW.length ≤ 5 ∧
    parse_number confW =
      Except.ok (((calculate_hash userW + CLIENT_KEY) % MAX_VALUE : Nat) : Int) ∧
    authenticate listNet (0 + 2) (chunkSt [userW ++ TERMINATOR, confW ++ TERMINATOR])
      = Res.ok () (authAcceptSt userW) :=
  ⟨by decide, by decide, by decide, by decide, by decide, by rfl,
   C2_round_trip 0 userW confW (by decide) (by decide) (by decide) (by decide) (by decide) (by rfl)⟩

/-! ### Claim C3 -/

/-- The C3 scenario: the client sends `RECHARGING` twice in a row. -/
def dblRecharge : List (List Char) :=
  ["RECHARGING\x07\x08".data, "RECHARGING\x07\x08".data]

/-- Claim C3, counterexample.  When the client sends `RECHARGING` and then
immediately `RECHARGING` again (spec scenario 5), the claim says the server
raises a logic fault and emits `302 LOGIC ERROR`.  The code instead treats
the second `RECHARGING` as the start of a nested recharge and keeps waiting
for `FULL POWER`: the session sends nothing at all and ends silently on the
read timeout. -/
theorem C3_counterexample :
    runSession listNet 20 dblRecharge = ([], Exit.timeoutSilent) := by
  decide

/-- Claim C3, amended: a second `RECHARGING` received while recharging is
consumed as a nested recharge and the server keeps waiting; a logic fault
(and `302 LOGIC ERROR`) is raised only when a message other than
`RECHARGING` and `FULL POWER` arrives while the session is recharging.  The
first conjunct shows the fault for any such message `m`; the second shows
the resulting terminal `302 LOGIC ERROR` on a concrete session. -/
theorem C3_amended :
    (∀ (fuel : Nat) (m : List Char), hasTerm m = false → m ≠ CLIENT_RECHARGING →
      m ≠ CLIENT_FULL_POWER → (m.length : Int) ≤ 10 →
      get_message listNet (fuel + 4) CLIENT_USERNAME_MAX_LENGTH
          (chunkSt ["RECHARGING\x07\x08".data, m ++ TERMINATOR])
        = Res.err PyErr.logicError { buffer := [], conn := [], sent := [], reads := 2 }) ∧
    runSession listNet 20 ["RECHARGING\x07\x08".data, "OK 1 2\x07\x08".data]
      = ([SERVER_LOGIC_ERROR], Exit.normal) := by
  constructor
  · intro fuel m h1 h2 h3 h4
    have g := gm_delivers listNet fuel CLIENT_FULL_POWER_MAX_LENGTH m
        [m ++ TERMINATOR] [] [] 1 rfl h1 h2
        (by simp only [CLIENT_FULL_POWER_MAX_LENGTH]; omega) (by decide)
    rw [show fuel + 4 = (fuel + 3) + 1 from rfl, chunkSt,
        gm_recv_chunk (fuel + 3) CLIENT_USERNAME_MAX_LENGTH
          ("RECHARGING\x07\x08".data) [m ++ TERMINATOR] [] 0 (by decide)]
    rw [show fuel + 3 = (fuel + 2) + 1 from rfl,
        gm_rech_step listNet (fuel + 2) CLIENT_USERNAME_MAX_LENGTH
          { buffer := ("RECHARGING\x07\x08".data), conn := [m ++ TERMINATOR],
            sent := [], reads := 0 + 1 }
          [] (by rfl)]
    simp [g, h3]
  · decide

/-- Witness for the universally quantified part of C3_amended. -/
theorem C3_witness :
    get_message listNet (0 + 4) CLIENT_USERNAME_MAX_LENGTH
        (chunkSt ["RECHARGING\x07\x08".data, "X".data ++ TERMINATOR])
      = Res.err PyErr.logicError { buffer := [], conn := [], sent := [], reads := 2 } :=
  C3_amended.1 0 ("X".data) (by decide) (by decide) (by decide) (by decide)

/-! ### Symbolic single-command lemmas for the compliant-robot environment

Whole navigation runs are proved by chaining these lemmas, one outbound
command at a time; the accumulator fields (`sent`, `reads`, `trail`,
`picked`) stay symbolic so the lemmas compose. -/

/-- Position one cell ahead of `p` in facing `d`. -/
def stepPos (d : Int) (p : Int × Int) : Int × Int :=
  (p.1 + (dirDelta d).1, p.2 + (dirDelta d).2)

/-- The robot environment sends with `robotSend`. -/
theorem robotNet_send (m : List Char) (r : Robot) :
    robotNet.sendMsg m r = robotSend m r := rfl

/-- One `102 MOVE` against the compliant robot: the robot advances one cell
and the reported position is parsed back. -/
theorem robot_move (fuel : Nat) (p : Int × Int) (d : Int)
    (cells : List ((Int × Int) × List Char)) (sent : List (List Char)) (reads : Nat)
    (trail picked : List (Int × Int))
    (h1 : hasTerm (okReplyFor (stepPos d p)) = false)
    (h2 : ((okReplyFor (stepPos d p)).length : Int) ≤ (CLIENT_OK_MAX_LENGTH : Int) - 2)
    (h3 : okReplyFor (stepPos d p) ≠ CLIENT_RECHARGING)
    (h4 : parse_client_ok (okReplyFor (stepPos d p)) = Except.ok (stepPos d p))
    (h5 : ¬(stepPos d p = p)) :
    move_forward robotNet (fuel + 2) p
      { buffer := [], conn := { pos := p, dir := d, cells := cells, pending := [],
                                trail := trail, picked := picked },
        sent := sent, reads := reads }
      = Res.ok (stepPos d p)
        { buffer := [], conn := { pos := stepPos d p, dir := d, cells := cells, pending := [],
                                  trail := trail ++ [stepPos d p], picked := picked },
          sent := sent ++ [SERVER_MOVE], reads := reads + 1 } := by
  have hrs : robotSend SERVER_MOVE
      { pos := p, dir := d, cells := cells, pending := [], trail := trail, picked := picked }
      = { pos := stepPos d p, dir := d, cells := cells,
          pending := okReplyFor (stepPos d p) ++ TERMINATOR,
          trail := trail ++ [stepPos d p], picked := picked } := by
    simp [robotSend, stepPos]
  have hrecv : robotNet.recvChunk
      { pos := stepPos d p, dir := d, cells := cells,
        pending := okReplyFor (stepPos d p) ++ TERMINATOR,
        trail := trail ++ [stepPos d p], picked := picked }
      = some (okReplyFor (stepPos d p) ++ TERMINATOR,
          { pos := stepPos d p, dir := d, cells := cells, pending := [],
            trail := trail ++ [stepPos d p], picked := picked }) := rfl
  have gd := gm_delivers robotNet fuel CLIENT_OK_MAX_LENGTH (okReplyFor (stepPos d p))
      _ _ (sent ++ [SERVER_MOVE]) reads hrecv h1 h3 h2 (by decide)
  rw [show fuel + 2 = (fuel + 1) + 1 from rfl]
  simp only [move_forward, mbind, mret, send_message, robotNet_send, hrs, gd, h4, liftE, h5,
             if_false, ite_false]

/-- One `103 TURN LEFT` against the compliant robot. -/
theorem robot_turn_left (fuel : Nat) (p : Int × Int) (d : Int)
    (cells : List ((Int × Int) × List Char)) (sent : List (List Char)) (reads : Nat)
    (trail picked : List (Int × Int))
    (h1 : hasTerm (okReplyFor p) = false)
    (h2 : ((okReplyFor p).length : Int) ≤ (CLIENT_OK_MAX_LENGTH : Int) - 2)
    (h3 : okReplyFor p ≠ CLIENT_RECHARGING)
    (h4 : parse_client_ok (okReplyFor p) = Except.ok p) :
    turn_left robotNet (fuel + 2)
      { buffer := [], conn := { pos := p, dir := d, cells := cells, pending := [],
                                trail := trail, picked := picked },
        sent := sent, reads := reads }
      = Res.ok p
        { buffer := [], conn := { pos := p, dir := turnLeftDir d, cells := cells, pending := [],
                                  trail := trail, picked := picked },
          sent := sent ++ [SERVER_TURN_LEFT], reads := reads + 1 } := by
  have hrs : robotSend SERVER_TURN_LEFT
      { pos := p, dir := d, cells := cells, pending := [], trail := trail, picked := picked }
      = { pos := p, dir := turnLeftDir d, cells := cells,
          pending := okReplyFor p ++ TERMINATOR, trail := trail, picked := picked } := by
    simp [robotSend, (by decide : ¬(SERVER_TURN_LEFT = SERVER_MOVE))]
  have hrecv : robotNet.recvChunk
      { pos := p, dir := turnLeftDir d, cells := cells,
        pending := okReplyFor p ++ TERMINATOR, trail := trail, picked := picked }
      = some (okReplyFor p ++ TERMINATOR,
          { pos := p, dir := turnLeftDir d, cells := cells, pending := [],
            trail := trail, picked := picked }) := rfl
  have gd := gm_delivers robotNet fuel CLIENT_OK_MAX_LENGTH (okReplyFor p)
      _ _ (sent ++ [SERVER_TURN_LEFT]) reads hrecv h1 h3 h2 (by decide)
  simp only [turn_left, mbind, mret, send_message, robotNet_send, hrs, gd, h4, liftE]

/-- One `104 TURN RIGHT` against the compliant robot. -/
theorem robot_turn_right (fuel : Nat) (p : Int × Int) (d : Int)
    (cells : List ((Int × Int) × List Char)) (sent : List (List Char)) (reads : Nat)
    (trail picked : List (Int × Int))
    (h1 : hasTerm (okReplyFor p) = false)
    (h2 : ((okReplyFor p).length : Int) ≤ (CLIENT_OK_MAX_LENGTH : Int) - 2)
    (h3 : okReplyFor p ≠ CLIENT_RECHARGING)
    (h4 : parse_client_ok (okReplyFor p) = Except.ok p) :
    turn_right robotNet (fuel + 2)
      { buffer := [], conn := { pos := p, dir := d, cells := cells, pending := [],
                                trail := trail, picked := picked },
        sent := sent, reads := reads }
      = Res.ok p
        { buffer := [], conn := { pos := p, dir := turnRightDir d, cells := cells, pending := [],
                                  trail := trail, picked := picked },
          sent := sent ++ [SERVER_TURN_RIGHT], reads := reads + 1 } := by
  have hrs : robotSend SERVER_TURN_RIGHT
      { pos := p, dir := d, cells := cells, pending := [], trail := trail, picked := picked }
      = { pos := p, dir := turnRightDir d, cells := cells,
          pending := okReplyFor p ++ TERMINATOR, trail := trail, picked := picked } := by
    simp [robotSend, (by decide : ¬(SERVER_TURN_RIGHT = SERVER_MOVE)),
          (by decide : ¬(SERVER_TURN_RIGHT = SERVER_TURN_LEFT))]
  have hrecv : robotNet.recvChunk
      { pos := p, dir := turnRightDir d, cells := cells,
        pending := okReplyFor p ++ TERMINATOR, trail := trail, picked := picked }
      = some (okReplyFor p ++ TERMINATOR,
          { pos := p, dir := turnRightDir d, cells := cells, pending := [],
            trail := trail, picked := picked }) := rfl
  have gd := gm_delivers robotNet fuel CLIENT_OK_MAX_LENGTH (okReplyFor p)
      _ _ (sent ++ [SERVER_TURN_RIGHT]) reads hrecv h1 h3 h2 (by decide)
  simp only [turn_right, mbind, mret, send_message, robotNet_send, hrs, gd, h4, liftE]

/-- One `105 GET MESSAGE` against the compliant robot: the robot answers
with the content of the current cell. -/
theorem robot_pick (fuel : Nat) (p : Int × Int) (d : Int)
    (cells : List ((Int × Int) × List Char)) (sent : List (List Char)) (reads : Nat)
    (trail picked : List (Int × Int)) (v : List Char)
    (hv : cellAt cells p = v)
    (h1 : hasTerm v = false)
    (h2 : (v.length : Int) ≤ (CLIENT_MESSAGE_MAX_LENGTH : Int) - 2)
    (h3 : v ≠ CLIENT_RECHARGING) :
    pick_message robotNet (fuel + 2)
      { buffer := [], conn := { pos := p, dir := d, cells := cells, pending := [],
                                trail := trail, picked := picked },
        sent := sent, reads := reads }
      = Res.ok v
        { buffer := [], conn := { pos := p, dir := d, cells := cells, pending := [],
                                  trail := trail, picked := picked ++ [p] },
          sent := sent ++ [SERVER_PICK_UP], reads := reads + 1 } := by
  have hrs : robotSend SERVER_PICK_UP
      { pos := p, dir := d, cells := cells, pending := [], trail := trail, picked := picked }
      = { pos := p, dir := d, cells := cells,
          pending := v ++ TERMINATOR, trail := trail, picked := picked ++ [p] } := by
    simp [robotSend, hv, (by decide : ¬(SERVER_PICK_UP = SERVER_MOVE)),
          (by decide : ¬(SERVER_PICK_UP = SERVER_TURN_LEFT)),
          (by decide : ¬(SERVER_PICK_UP = SERVER_TURN_RIGHT))]
  have hrecv : robotNet.recvChunk
      { pos := p, dir := d, cells := cells,
        pending := v ++ TERMINATOR, trail := trail, picked := picked ++ [p] }
      = some (v ++ TERMINATOR,
          { pos := p, dir := d, cells := cells, pending := [],
            trail := trail, picked := picked ++ [p] }) := by
    cases v with
    | nil => rfl
    | cons c cs => rfl
  have gd := gm_delivers robotNet fuel CLIENT_MESSAGE_MAX_LENGTH v
      _ _ (sent ++ [SERVER_PICK_UP]) reads hrecv h1 h3 h2 (by decide)
  simp only [pick_message, mbind, mret, send_message, robotNet_send, hrs, gd]

/-- `106 LOGOUT` against the compliant robot: no reply, robot unchanged. -/
theorem robot_logout (p : Int × Int) (d : Int)
    (cells : List ((Int × Int) × List Char)) (sent : List (List Char)) (reads : Nat)
    (trail picked : List (Int × Int)) :
    logout robotNet
      { buffer := [], conn := { pos := p, dir := d, cells := cells, pending := [],
                                trail := trail, picked := picked },
        sent := sent, reads := reads }
      = Res.ok ()
        { buffer := [], conn := { pos := p, dir := d, cells := cells, pending := [],
                                  trail := trail, picked := picked },
          sent := sent ++ [SERVER_LOGOUT], reads := reads } := by
  have hrs : robotSend SERVER_LOGOUT
      { pos := p, dir := d, cells := cells, pending := [], trail := trail, picked := picked }
      = { pos := p, dir := d, cells := cells, pending := [],
          trail := trail, picked := picked } := by
    simp [robotSend, (by decide : ¬(SERVER_LOGOUT = SERVER_MOVE)),
          (by decide : ¬(SERVER_LOGOUT = SERVER_TURN_LEFT)),
          (by decide : ¬(SERVER_LOGOUT = SERVER_TURN_RIGHT)),
          (by decide : ¬(SERVER_LOGOUT = SERVER_PICK_UP))]
  simp only [logout, send_message, robotNet_send, hrs]

/-! ### Claim C4 -/

/-- The destination region `[-2..2] × [-2..2]` of the spec. -/
def inRegion (p : Int × Int) : Prop :=
  -2 ≤ p.1 ∧ p.1 ≤ 2 ∧ -2 ≤ p.2 ∧ p.2 ≤ 2

instance (p : Int × Int) : Decidable (inRegion p) := by
  unfold inRegion
  infer_instance

/-- The 25 region cells in the serpentine order of the sweep. -/
def serpCells : List (Int × Int) :=
  [(-2, 2), (-1, 2), (0, 2), (1, 2), (2, 2),
   (2, 1), (1, 1), (0, 1), (-1, 1), (-2, 1),
   (-2, 0), (-1, 0), (0, 0), (1, 0), (2, 0),
   (2, -1), (1, -1), (0, -1), (-1, -1), (-2, -1),
   (-2, -2), (-1, -2), (0, -2), (1, -2), (2, -2)]

/-- The 25 region cells in plain reading order. -/
def regionList : List (Int × Int) :=
  [(-2, 2), (-1, 2), (0, 2), (1, 2), (2, 2),
   (-2, 1), (-1, 1), (0, 1), (1, 1), (2, 1),
   (-2, 0), (-1, 0), (0, 0), (1, 0), (2, 0),
   (-2, -1), (-1, -1), (0, -1), (1, -1), (2, -1),
   (-2, -2), (-1, -2), (0, -2), (1, -2), (2, -2)]

/-- The positions reached by each `MOVE` of a full (all-empty) sweep: the
24 in-region serpentine steps followed by the final transition step onto
`(2, -3)`. -/
def sweepTrail : List (Int × Int) :=
  [(-1, 2), (0, 2), (1, 2), (2, 2),
   (2, 1), (1, 1), (0, 1), (-1, 1), (-2, 1),
   (-2, 0), (-1, 0), (0, 0), (1, 0), (2, 0),
   (2, -1), (1, -1), (0, -1), (-1, -1), (-2, -1),
   (-2, -2), (-1, -2), (0, -2), (1, -2), (2, -2),
   (2, -3)]

/-- Full sweep run: compliant robot at the top-left corner facing East
(matching the tracked direction), all cells empty. -/
def sweepEmpty : Res Robot Unit :=
  search_square robotNet 6 RIGHT (robotSt (-2, 2) RIGHT [])

/-- Same sweep with the robot (and tracked direction) initially facing North. -/
def sweepEmptyUp : Res Robot Unit :=
  search_square robotNet 6 UP (robotSt (-2, 2) UP [])

/-- The cell-content table with a message hidden at `(0, 2)`. -/
def msgCells : List ((Int × Int) × List Char) := [((0, 2), "secret".data)]

/-- Sweep run with a message hidden at cell `(0, 2)`. -/
def sweepFound : Res Robot Unit :=
  search_square robotNet 6 RIGHT (robotSt (-2, 2) RIGHT msgCells)

/-- One eastward sweep row at y = 2 with every cell empty. -/
theorem sweep_row1 (sent : List (List Char)) (reads : Nat) (trail picked : List (Int × Int)) :
    search_inner robotNet 6 [-2, -1, 0, 1, 2] (-2, 2)
      { buffer := [], conn := { pos := (-2, 2), dir := 4, cells := [], pending := [],
                                trail := trail, picked := picked },
        sent := sent, reads := reads }
      = Res.ok (some ((2 : Int), (2 : Int)))
        { buffer := [], conn := { pos := (2, 2), dir := 4, cells := [], pending := [],
                                  trail := trail ++ [(-1, 2), (0, 2), (1, 2), (2, 2)],
                                  picked := picked ++ [(-2, 2), (-1, 2), (0, 2), (1, 2), (2, 2)] },
          sent := sent ++ [SERVER_PICK_UP, SERVER_MOVE, SERVER_PICK_UP, SERVER_MOVE, SERVER_PICK_UP, SERVER_MOVE, SERVER_PICK_UP, SERVER_MOVE, SERVER_PICK_UP],
          reads := reads + 9 } := by
  simp [search_inner, mbind, mret, stepPos, dirDelta, turnLeftDir, turnRightDir,
        UP, DOWN, LEFT, RIGHT, Prod.mk.injEq, -Prod.mk_zero_zero, -Prod.mk_one_one, List.append_assoc]
  rw [robot_pick 4 (-2, 2) 4 [] _ _ _ _ [] (by decide) (by decide) (by decide) (by decide)]
  simp [search_inner, mbind, mret, stepPos, dirDelta, turnLeftDir, turnRightDir,
        UP, DOWN, LEFT, RIGHT, Prod.mk.injEq, -Prod.mk_zero_zero, -Prod.mk_one_one, List.append_assoc]
  rw [robot_move 4 (-2, 2) 4 [] _ _ _ _ (by decide) (by decide) (by decide) (by decide) (by decide)]
  simp [search_inner, mbind, mret, stepPos, dirDelta, turnLeftDir, turnRightDir,
        UP, DOWN, LEFT, RIGHT, Prod.mk.injEq, -Prod.mk_zero_zero, -Prod.mk_one_one, List.append_assoc]
  rw [robot_pick 4 (-1, 2) 4 [] _ _ _ _ [] (by decide) (by decide) (by decide) (by decide)]
  simp [search_inner, mbind, mret, stepPos, dirDelta, turnLeftDir, turnRightDir,
        UP, DOWN, LEFT, RIGHT, Prod.mk.injEq, -Prod.mk_zero_zero, -Prod.mk_one_one, List.append_assoc]
  rw [robot_move 4 (-1, 2) 4 [] _ _ _ _ (by decide) (by decide) (by decide) (by decide) (by decide)]
  simp [search_inner, mbind, mret, stepPos, dirDelta, turnLeftDir, turnRightDir,
        UP, DOWN, LEFT, RIGHT, Prod.mk.injEq, -Prod.mk_zero_zero, -Prod.mk_one_one, List.append_assoc]
  rw [robot_pick 4 (0, 2) 4 [] _ _ _ _ [] (by decide) (by decide) (by decide) (by decide)]
  simp [search_inner, mbind, mret, stepPos, dirDelta, turnLeftDir, turnRightDir,
        UP, DOWN, LEFT, RIGHT, Prod.mk.injEq, -Prod.mk_zero_zero, -Prod.mk_one_one, List.append_assoc]
  rw [robot_move 4 (0, 2) 4 [] _ _ _ _ (by decide) (by decide) (by decide) (by decide) (by decide)]
  simp [search_inner, mbind, mret, stepPos, dirDelta, turnLeftDir, turnRightDir,
        UP, DOWN, LEFT, RIGHT, Prod.mk.injEq, -Prod.mk_zero_zero, -Prod.mk_one_one, List.append_assoc]
  rw [robot_pick 4 (1, 2) 4 [] _ _ _ _ [] (by decide) (by decide) (by decide) (by decide)]
  simp [search_inner, mbind, mret, stepPos, dirDelta, turnLeftDir, turnRightDir,
        UP, DOWN, LEFT, RIGHT, Prod.mk.injEq, -Prod.mk_zero_zero, -Prod.mk_one_one, List.append_assoc]
  rw [robot_move 4 (1, 2) 4 [] _ _ _ _ (by decide) (by decide) (by decide) (by decide) (by decide)]
  simp [search_inner, mbind, mret, stepPos, dirDelta, turnLeftDir, turnRightDir,
        UP, DOWN, LEFT, RIGHT, Prod.mk.injEq, -Prod.mk_zero_zero, -Prod.mk_one_one, List.append_assoc]
  rw [robot_pick 4 (2, 2) 4 [] _ _ _ _ [] (by decide) (by decide) (by decide) (by decide)]
  simp [search_inner, mbind, mret, stepPos, dirDelta, turnLeftDir, turnRightDir,
        UP, DOWN, LEFT, RIGHT, Prod.mk.injEq, -Prod.mk_zero_zero, -Prod.mk_one_one, List.append_assoc]

/-- One westward sweep row at y = 1 with every cell empty. -/
theorem sweep_row2 (sent : List (List Char)) (reads : Nat) (trail picked : List (Int × Int)) :
    search_inner robotNet 6 [-2, -1, 0, 1, 2] (2, 1)
      { buffer := [], conn := { pos := (2, 1), dir := 3, cells := [], pending := [],
                                trail := trail, picked := picked },
        sent := sent, reads := reads }
      = Res.ok (some ((-2 : Int), (1 : Int)))
        { buffer := [], conn := { pos := (-2, 1), dir := 3, cells := [], pending := [],
                                  trail := trail ++ [(1, 1), (0, 1), (-1, 1), (-2, 1)],
                                  picked := picked ++ [(2, 1), (1, 1), (0, 1), (-1, 1), (-2, 1)] },
          sent := sent ++ [SERVER_PICK_UP, SERVER_MOVE, SERVER_PICK_UP, SERVER_MOVE, SERVER_PICK_UP, SERVER_MOVE, SERVER_PICK_UP, SERVER_MOVE, SERVER_PICK_UP],
          reads := reads + 9 } := by
  simp [search_inner, mbind, mret, stepPos, dirDelta, turnLeftDir, turnRightDir,
        UP, DOWN, LEFT, RIGHT, Prod.mk.injEq, -Prod.mk_zero_zero, -Prod.mk_one_one, List.append_assoc]
  rw [robot_pick 4 (2, 1) 3 [] _ _ _ _ [] (by decide) (by decide) (by decide) (by decide)]
  simp [search_inner, mbind, mret, stepPos, dirDelta, turnLeftDir, turnRightDir,
        UP, DOWN, LEFT, RIGHT, Prod.mk.injEq, -Prod.mk_zero_zero, -Prod.mk_one_one, List.append_assoc]
  rw [robot_move 4 (2, 1) 3 [] _ _ _ _ (by decide) (by decide) (by decide) (by decide) (by decide)]
  simp [search_inner, mbind, mret, stepPos, dirDelta, turnLeftDir, turnRightDir,
        UP, DOWN, LEFT, RIGHT, Prod.mk.injEq, -Prod.mk_zero_zero, -Prod.mk_one_one, List.append_assoc]
  rw [robot_pick 4 (1, 1) 3 [] _ _ _ _ [] (by decide) (by decide) (by decide) (by decide)]
  simp [search_inner, mbind, mret, stepPos, dirDelta, turnLeftDir, turnRightDir,
        UP, DOWN, LEFT, RIGHT, Prod.mk.injEq, -Prod.mk_zero_zero, -Prod.mk_one_one, List.append_assoc]
  rw [robot_move 4 (1, 1) 3 [] _ _ _ _ (by decide) (by decide) (by decide) (by decide) (by decide)]
  simp [search_inner, mbind, mret, stepPos, dirDelta, turnLeftDir, turnRightDir,
        UP, DOWN, LEFT, RIGHT, Prod.mk.injEq, -Prod.mk_zero_zero, -Prod.mk_one_one, List.append_assoc]
  rw [robot_pick 4 (0, 1) 3 [] _ _ _ _ [] (by decide) (by decide) (by decide) (by decide)]
  simp [search_inner, mbind, mret, stepPos, dirDelta, turnLeftDir, turnRightDir,
        UP, DOWN, LEFT, RIGHT, Prod.mk.injEq, -Prod.mk_zero_zero, -Prod.mk_one_one, List.append_assoc]
  rw [robot_move 4 (0, 1) 3 [] _ _ _ _ (by decide) (by decide) (by decide) (by decide) (by decide)]
  simp [search_inner, mbind, mret, stepPos, dirDelta, turnLeftDir, turnRightDir,
        UP, DOWN, LEFT, RIGHT, Prod.mk.injEq, -Prod.mk_zero_zero, -Prod.mk_one_one, List.append_assoc]
  rw [robot_pick 4 (-1, 1) 3 [] _ _ _ _ [] (by decide) (by decide) (by decide) (by decide)]
  simp [search_inner, mbind, mret, stepPos, dirDelta, turnLeftDir, turnRightDir,
        UP, DOWN, LEFT, RIGHT, Prod.mk.injEq, -Prod.mk_zero_zero, -Prod.mk_one_one, List.append_assoc]
  rw [robot_move 4 (-1, 1) 3 [] _ _ _ _ (by decide) (by decide) (by decide) (by decide) (by decide)]
  simp [search_inner, mbind, mret, stepPos, dirDelta, turnLeftDir, turnRightDir,
        UP, DOWN, LEFT, RIGHT, Prod.mk.injEq, -Prod.mk_zero_zero, -Prod.mk_one_one, List.append_assoc]
  rw [robot_pick 4 (-2, 1) 3 [] _ _ _ _ [] (by decide) (by decide) (by decide) (by decide)]
  simp [search_inner, mbind, mret, stepPos, dirDelta, turnLeftDir, turnRightDir,
        UP, DOWN, LEFT, RIGHT, Prod.mk.injEq, -Prod.mk_zero_zero, -Prod.mk_one_one, List.append_assoc]

/-- One eastward sweep row at y = 0 with every cell empty. -/
theorem sweep_row3 (sent : List (List Char)) (reads : Nat) (trail picked : List (Int × Int)) :
    search_inner robotNet 6 [-2, -1, 0, 1, 2] (-2, 0)
      { buffer := [], conn := { pos := (-2, 0), dir := 4, cells := [], pending := [],
                                trail := trail, picked := picked },
        sent := sent, reads := reads }
      = Res.ok (some ((2 : Int), (0 : Int)))
        { buffer := [], conn := { pos := (2, 0), dir := 4, cells := [], pending := [],
                                  trail := trail ++ [(-1, 0), (0, 0), (1, 0), (2, 0)],
                                  picked := picked ++ [(-2, 0), (-1, 0), (0, 0), (1, 0), (2, 0)] },
          sent := sent ++ [SERVER_PICK_UP, SERVER_MOVE, SERVER_PICK_UP, SERVER_MOVE, SERVER_PICK_UP, SERVER_MOVE, SERVER_PICK_UP, SERVER_MOVE, SERVER_PICK_UP],
          reads := reads + 9 } := by
  simp [search_inner, mbind, mret, stepPos, dirDelta, turnLeftDir, turnRightDir,
        UP, DOWN, LEFT, RIGHT, Prod.mk.injEq, -Prod.mk_zero_zero, -Prod.mk_one_one, List.append_assoc]
  rw [robot_pick 4 (-2, 0) 4 [] _ _ _ _ [] (by decide) (by decide) (by decide) (by decide)]
  simp [search_inner, mbind, mret, stepPos, dirDelta, turnLeftDir, turnRightDir,
        UP, DOWN, LEFT, RIGHT, Prod.mk.injEq, -Prod.mk_zero_zero, -Prod.mk_one_one, List.append_assoc]
  rw [robot_move 4 (-2, 0) 4 [] _ _ _ _ (by decide) (by decide) (by decide) (by decide) (by decide)]
  simp [search_inner, mbind, mret, stepPos, dirDelta, turnLeftDir, turnRightDir,
        UP, DOWN, LEFT, RIGHT, Prod.mk.injEq, -Prod.mk_zero_zero, -Prod.mk_one_one, List.append_assoc]
  rw [robot_pick 4 (-1, 0) 4 [] _ _ _ _ [] (by decide) (by decide) (by decide) (by decide)]
  simp [search_inner, mbind, mret, stepPos, dirDelta, turnLeftDir, turnRightDir,
        UP, DOWN, LEFT, RIGHT, Prod.mk.injEq, -Prod.mk_zero_zero, -Prod.mk_one_one, List.append_assoc]
  rw [robot_move 4 (-1, 0) 4 [] _ _ _ _ (by decide) (by decide) (by decide) (by decide) (by decide)]
  simp [search_inner, mbind, mret, stepPos, dirDelta, turnLeftDir, turnRightDir,
        UP, DOWN, LEFT, RIGHT, Prod.mk.injEq, -Prod.mk_zero_zero, -Prod.mk_one_one, List.append_assoc]
  rw [robot_pick 4 (0, 0) 4 [] _ _ _ _ [] (by decide) (by decide) (by decide) (by decide)]
  simp [search_inner, mbind, mret, stepPos, dirDelta, turnLeftDir, turnRightDir,
        UP, DOWN, LEFT, RIGHT, Prod.mk.injEq, -Prod.mk_zero_zero, -Prod.mk_one_one, List.append_assoc]
  rw [robot_move 4 (0, 0) 4 [] _ _ _ _ (by decide) (by decide) (by decide) (by decide) (by decide)]
  simp [search_inner, mbind, mret, stepPos, dirDelta, turnLeftDir, turnRightDir,
        UP, DOWN, LEFT, RIGHT, Prod.mk.injEq, -Prod.mk_zero_zero, -Prod.mk_one_one, List.append_assoc]
  rw [robot_pick 4 (1, 0) 4 [] _ _ _ _ [] (by decide) (by decide) (by decide) (by decide)]
  simp [search_inner, mbind, mret, stepPos, dirDelta, turnLeftDir, turnRightDir,
        UP, DOWN, LEFT, RIGHT, Prod.mk.injEq, -Prod.mk_zero_zero, -Prod.mk_one_one, List.append_assoc]
  rw [robot_move 4 (1, 0) 4 [] _ _ _ _ (by decide) (by decide) (by decide) (by decide) (by decide)]
  simp [search_inner, mbind, mret, stepPos, dirDelta, turnLeftDir, turnRightDir,
        UP, DOWN, LEFT, RIGHT, Prod.mk.injEq, -Prod.mk_zero_zero, -Prod.mk_one_one, List.append_assoc]
  rw [robot_pick 4 (2, 0) 4 [] _ _ _ _ [] (by decide) (by decide) (by decide) (by decide)]
  simp [search_inner, mbind, mret, stepPos, dirDelta, turnLeftDir, turnRightDir,
        UP, DOWN, LEFT, RIGHT, Prod.mk.injEq, -Prod.mk_zero_zero, -Prod.mk_one_one, List.append_assoc]

/-- One westward sweep row at y = -1 with every cell empty. -/
theorem sweep_row4 (sent : List (List Char)) (reads : Nat) (trail picked : List (Int × Int)) :
    search_inner robotNet 6 [-2, -1, 0, 1, 2] (2, -1)
      { buffer := [], conn := { pos := (2, -1), dir := 3, cells := [], pending := [],
                                trail := trail, picked := picked },
        sent := sent, reads := reads }
      = Res.ok (some ((-2 : Int), (-1 : Int)))
        { buffer := [], conn := { pos := (-2, -1), dir := 3, cells := [], pending := [],
                                  trail := trail ++ [(1, -1), (0, -1), (-1, -1), (-2, -1)],
                                  picked := picked ++ [(2, -1), (1, -1), (0, -1), (-1, -1), (-2, -1)] },
          sent := sent ++ [SERVER_PICK_UP, SERVER_MOVE, SERVER_PICK_UP, SERVER_MOVE, SERVER_PICK_UP, SERVER_MOVE, SERVER_PICK_UP, SERVER_MOVE, SERVER_PICK_UP],
          reads := reads + 9 } := by
  simp [search_inner, mbind, mret, stepPos, dirDelta, turnLeftDir, turnRightDir,
        UP, DOWN, LEFT, RIGHT, Prod.mk.injEq, -Prod.mk_zero_zero, -Prod.mk_one_one, List.append_assoc]
  rw [robot_pick 4 (2, -1) 3 [] _ _ _ _ [] (by decide) (by decide) (by decide) (by decide)]
  simp [search_inner, mbind, mret, stepPos, dirDelta, turnLeftDir, turnRightDir,
        UP, DOWN, LEFT, RIGHT, Prod.mk.injEq, -Prod.mk_zero_zero, -Prod.mk_one_one, List.append_assoc]
  rw [robot_move 4 (2, -1) 3 [] _ _ _ _ (by decide) (by decide) (by decide) (by decide) (by decide)]
  simp [search_inner, mbind, mret, stepPos, dirDelta, turnLeftDir, turnRightDir,
        UP, DOWN, LEFT, RIGHT, Prod.mk.injEq, -Prod.mk_zero_zero, -Prod.mk_one_one, List.append_assoc]
  rw [robot_pick 4 (1, -1) 3 [] _ _ _ _ [] (by decide) (by decide) (by decide) (by decide)]
  simp [search_inner, mbind, mret, stepPos, dirDelta, turnLeftDir, turnRightDir,
        UP, DOWN, LEFT, RIGHT, Prod.mk.injEq, -Prod.mk_zero_zero, -Prod.mk_one_one, List.append_assoc]
  rw [robot_move 4 (1, -1) 3 [] _ _ _ _ (by decide) (by decide) (by decide) (by decide) (by decide)]
  simp [search_inner, mbind, mret, stepPos, dirDelta, turnLeftDir, turnRightDir,
        UP, DOWN, LEFT, RIGHT, Prod.mk.injEq, -Prod.mk_zero_zero, -Prod.mk_one_one, List.append_assoc]
  rw [robot_pick 4 (0, -1) 3 [] _ _ _ _ [] (by decide) (by decide) (by decide) (by decide)]
  simp [search_inner, mbind, mret, stepPos, dirDelta, turnLeftDir, turnRightDir,
        UP, DOWN, LEFT, RIGHT, Prod.mk.injEq, -Prod.mk_zero_zero, -Prod.mk_one_one, List.append_assoc]
  rw [robot_move 4 (0, -1) 3 [] _ _ _ _ (by decide) (by decide) (by decide) (by decide) (by decide)]
  simp [search_inner, mbind, mret, stepPos, dirDelta, turnLeftDir, turnRightDir,
        UP, DOWN, LEFT, RIGHT, Prod.mk.injEq, -Prod.mk_zero_zero, -Prod.mk_one_one, List.append_assoc]
  rw [robot_pick 4 (-1, -1) 3 [] _ _ _ _ [] (by decide) (by decide) (by decide) (by decide)]
  simp [search_inner, mbind, mret, stepPos, dirDelta, turnLeftDir, turnRightDir,
        UP, DOWN, LEFT, RIGHT, Prod.mk.injEq, -Prod.mk_zero_zero, -Prod.mk_one_one, List.append_assoc]
  rw [robot_move 4 (-1, -1) 3 [] _ _ _ _ (by decide) (by decide) (by decide) (by decide) (by decide)]
  simp [search_inner, mbind, mret, stepPos, dirDelta, turnLeftDir, turnRightDir,
        UP, DOWN, LEFT, RIGHT, Prod.mk.injEq, -Prod.mk_zero_zero, -Prod.mk_one_one, List.append_assoc]
  rw [robot_pick 4 (-2, -1) 3 [] _ _ _ _ [] (by decide) (by decide) (by decide) (by decide)]
  simp [search_inner, mbind, mret, stepPos, dirDelta, turnLeftDir, turnRightDir,
        UP, DOWN, LEFT, RIGHT, Prod.mk.injEq, -Prod.mk_zero_zero, -Prod.mk_one_one, List.append_assoc]

/-- One eastward sweep row at y = -2 with every cell empty. -/
theorem sweep_row5 (sent : List (List Char)) (reads : Nat) (trail picked : List (Int × Int)) :
    search_inner robotNet 6 [-2, -1, 0, 1, 2] (-2, -2)
      { buffer := [], conn := { pos := (-2, -2), dir := 4, cells := [], pending := [],
                                trail := trail, picked := picked },
        sent := sent, reads := reads }
      = Res.ok (some ((2 : Int), (-2 : Int)))
        { buffer := [], conn := { pos := (2, -2), dir := 4, cells := [], pending := [],
                                  trail := trail ++ [(-1, -2), (0, -2), (1, -2), (2, -2)],
                                  picked := picked ++ [(-2, -2), (-1, -2), (0, -2), (1, -2), (2, -2)] },
          sent := sent ++ [SERVER_PICK_UP, SERVER_MOVE, SERVER_PICK_UP, SERVER_MOVE, SERVER_PICK_UP, SERVER_MOVE, SERVER_PICK_UP, SERVER_MOVE, SERVER_PICK_UP],
          reads := reads + 9 } := by
  simp [search_inner, mbind, mret, stepPos, dirDelta, turnLeftDir, turnRightDir,
        UP, DOWN, LEFT, RIGHT, Prod.mk.injEq, -Prod.mk_zero_zero, -Prod.mk_one_one, List.append_assoc]
  rw [robot_pick 4 (-2, -2) 4 [] _ _ _ _ [] (by decide) (by decide) (by decide) (by decide)]
  simp [search_inner, mbind, mret, stepPos, dirDelta, turnLeftDir, turnRightDir,
        UP, DOWN, LEFT, RIGHT, Prod.mk.injEq, -Prod.mk_zero_zero, -Prod.mk_one_one, List.append_assoc]
  rw [robot_move 4 (-2, -2) 4 [] _ _ _ _ (by decide) (by decide) (by decide) (by decide) (by decide)]
  simp [search_inner, mbind, mret, stepPos, dirDelta, turnLeftDir, turnRightDir,
        UP, DOWN, LEFT, RIGHT, Prod.mk.injEq, -Prod.mk_zero_zero, -Prod.mk_one_one, List.append_assoc]
  rw [robot_pick 4 (-1, -2) 4 [] _ _ _ _ [] (by decide) (by decide) (by decide) (by decide)]
  simp [search_inner, mbind, mret, stepPos, dirDelta, turnLeftDir, turnRightDir,
        UP, DOWN, LEFT, RIGHT, Prod.mk.injEq, -Prod.mk_zero_zero, -Prod.mk_one_one, List.append_assoc]
  rw [robot_move 4 (-1, -2) 4 [] _ _ _ _ (by decide) (by decide) (by decide) (by decide) (by decide)]
  simp [search_inner, mbind, mret, stepPos, dirDelta, turnLeftDir, turnRightDir,
        UP, DOWN, LEFT, RIGHT, Prod.mk.injEq, -Prod.mk_zero_zero, -Prod.mk_one_one, List.append_assoc]
  rw [robot_pick 4 (0, -2) 4 [] _ _ _ _ [] (by decide) (by decide) (by decide) (by decide)]
  simp [search_inner, mbind, mret, stepPos, dirDelta, turnLeftDir, turnRightDir,
        UP, DOWN, LEFT, RIGHT, Prod.mk.injEq, -Prod.mk_zero_zero, -Prod.mk_one_one, List.append_assoc]
  rw [robot_move 4 (0, -2) 4 [] _ _ _ _ (by decide) (by decide) (by decide) (by decide) (by decide)]
  simp [search_inner, mbind, mret, stepPos, dirDelta, turnLeftDir, turnRightDir,
        UP, DOWN, LEFT, RIGHT, Prod.mk.injEq, -Prod.mk_zero_zero, -Prod.mk_one_one, List.append_assoc]
  rw [robot_pick 4 (1, -2) 4 [] _ _ _ _ [] (by decide) (by decide) (by decide) (by decide)]
  simp [search_inner, mbind, mret, stepPos, dirDelta, turnLeftDir, turnRightDir,
        UP, DOWN, LEFT, RIGHT, Prod.mk.injEq, -Prod.mk_zero_zero, -Prod.mk_one_one, List.append_assoc]
  rw [robot_move 4 (1, -2) 4 [] _ _ _ _ (by decide) (by decide) (by decide) (by decide) (by decide)]
  simp [search_inner, mbind, mret, stepPos, dirDelta, turnLeftDir, turnRightDir,
        UP, DOWN, LEFT, RIGHT, Prod.mk.injEq, -Prod.mk_zero_zero, -Prod.mk_one_one, List.append_assoc]
  rw [robot_pick 4 (2, -2) 4 [] _ _ _ _ [] (by decide) (by decide) (by decide) (by decide)]
  simp [search_inner, mbind, mret, stepPos, dirDelta, turnLeftDir, turnRightDir,
        UP, DOWN, LEFT, RIGHT, Prod.mk.injEq, -Prod.mk_zero_zero, -Prod.mk_one_one, List.append_assoc]

/-- The first sweep row against a robot with a message hidden at (0, 2): the sweep stops and logs out. -/
theorem sweep_row_found (sent : List (List Char)) (reads : Nat) (trail picked : List (Int × Int)) :
    search_inner robotNet 6 [-2, -1, 0, 1, 2] (-2, 2)
      { buffer := [], conn := { pos := (-2, 2), dir := 4, cells := msgCells, pending := [],
                                trail := trail, picked := picked },
        sent := sent, reads := reads }
      = Res.ok none
        { buffer := [], conn := { pos := (0, 2), dir := 4, cells := msgCells, pending := [],
                                  trail := trail ++ [(-1, 2), (0, 2)],
                                  picked := picked ++ [(-2, 2), (-1, 2), (0, 2)] },
          sent := sent ++ [SERVER_PICK_UP, SERVER_MOVE, SERVER_PICK_UP, SERVER_MOVE, SERVER_PICK_UP, SERVER_LOGOUT],
          reads := reads + 5 } := by
  simp [search_inner, mbind, mret, stepPos, dirDelta, turnLeftDir, turnRightDir,
        UP, DOWN, LEFT, RIGHT, Prod.mk.injEq, -Prod.mk_zero_zero, -Prod.mk_one_one, List.append_assoc]
  rw [robot_pick 4 (-2, 2) 4 msgCells _ _ _ _ [] (by decide) (by decide) (by decide) (by decide)]
  simp [search_inner, mbind, mret, stepPos, dirDelta, turnLeftDir, turnRightDir,
        UP, DOWN, LEFT, RIGHT, Prod.mk.injEq, -Prod.mk_zero_zero, -Prod.mk_one_one, List.append_assoc]
  rw [robot_move 4 (-2, 2) 4 msgCells _ _ _ _ (by decide) (by decide) (by decide) (by decide) (by decide)]
  simp [search_inner, mbind, mret, stepPos, dirDelta, turnLeftDir, turnRightDir,
        UP, DOWN, LEFT, RIGHT, Prod.mk.injEq, -Prod.mk_zero_zero, -Prod.mk_one_one, List.append_assoc]
  rw [robot_pick 4 (-1, 2) 4 msgCells _ _ _ _ [] (by decide) (by decide) (by decide) (by decide)]
  simp [search_inner, mbind, mret, stepPos, dirDelta, turnLeftDir, turnRightDir,
        UP, DOWN, LEFT, RIGHT, Prod.mk.injEq, -Prod.mk_zero_zero, -Prod.mk_one_one, List.append_assoc]
  rw [robot_move 4 (-1, 2) 4 msgCells _ _ _ _ (by decide) (by decide) (by decide) (by decide) (by decide)]
  simp [search_inner, mbind, mret, stepPos, dirDelta, turnLeftDir, turnRightDir,
        UP, DOWN, LEFT, RIGHT, Prod.mk.injEq, -Prod.mk_zero_zero, -Prod.mk_one_one, List.append_assoc]
  rw [robot_pick 4 (0, 2) 4 msgCells _ _ _ _ ("secret".data) (by decide) (by decide) (by decide) (by decide)]
  simp [search_inner, mbind, mret, stepPos, dirDelta, turnLeftDir, turnRightDir,
        UP, DOWN, LEFT, RIGHT, Prod.mk.injEq, -Prod.mk_zero_zero, -Prod.mk_one_one, List.append_assoc]
  rw [robot_logout (0, 2) 4 msgCells _ _ _ _]
  simp [search_inner, mbind, mret, stepPos, dirDelta, turnLeftDir, turnRightDir,
        UP, DOWN, LEFT, RIGHT, Prod.mk.injEq, -Prod.mk_zero_zero, -Prod.mk_one_one, List.append_assoc]


/-- The full 5 x 5 serpentine of `search_outer` over an all-empty region,
starting at the top-left corner facing East: 25 pickups at the serpentine
cells and the final row transition onto `(2, -3)`. -/
theorem sweep_core (sent : List (List Char)) (reads : Nat) (trail picked : List (Int × Int)) :
    search_outer robotNet 6 [-2, -1, 0, 1, 2] 0 (-2, 2)
      { buffer := [], conn := { pos := (-2, 2), dir := 4, cells := [], pending := [],
                                trail := trail, picked := picked },
        sent := sent, reads := reads }
      = Res.ok ()
        { buffer := [], conn := { pos := (2, -3), dir := 3, cells := [], pending := [],
                                  trail := trail ++ [(-1, 2), (0, 2), (1, 2), (2, 2), (2, 1), (1, 1), (0, 1), (-1, 1), (-2, 1), (-2, 0), (-1, 0), (0, 0), (1, 0), (2, 0), (2, -1), (1, -1), (0, -1), (-1, -1), (-2, -1), (-2, -2), (-1, -2), (0, -2), (1, -2), (2, -2), (2, -3)],
                                  picked := picked ++ [(-2, 2), (-1, 2), (0, 2), (1, 2), (2, 2), (2, 1), (1, 1), (0, 1), (-1, 1), (-2, 1), (-2, 0), (-1, 0), (0, 0), (1, 0), (2, 0), (2, -1), (1, -1), (0, -1), (-1, -1), (-2, -1), (-2, -2), (-1, -2), (0, -2), (1, -2), (2, -2)] },
          sent := sent ++ [SERVER_PICK_UP, SERVER_MOVE, SERVER_PICK_UP, SERVER_MOVE,
           SERVER_PICK_UP, SERVER_MOVE, SERVER_PICK_UP, SERVER_MOVE,
           SERVER_PICK_UP, SERVER_TURN_RIGHT, SERVER_MOVE, SERVER_TURN_RIGHT,
           SERVER_PICK_UP, SERVER_MOVE, SERVER_PICK_UP, SERVER_MOVE,
           SERVER_PICK_UP, SERVER_MOVE, SERVER_PICK_UP, SERVER_MOVE,
           SERVER_PICK_UP, SERVER_TURN_LEFT, SERVER_MOVE, SERVER_TURN_LEFT,
           SERVER_PICK_UP, SERVER_MOVE, SERVER_PICK_UP, SERVER_MOVE,
           SERVER_PICK_UP, SERVER_MOVE, SERVER_PICK_UP, SERVER_MOVE,
           SERVER_PICK_UP, SERVER_TURN_RIGHT, SERVER_MOVE, SERVER_TURN_RIGHT,
           SERVER_PICK_UP, SERVER_MOVE, SERVER_PICK_UP, SERVER_MOVE,
           SERVER_PICK_UP, SERVER_MOVE, SERVER_PICK_UP, SERVER_MOVE,
           SERVER_PICK_UP, SERVER_TURN_LEFT, SERVER_MOVE, SERVER_TURN_LEFT,
           SERVER_PICK_UP, SERVER_MOVE, SERVER_PICK_UP, SERVER_MOVE,
           SERVER_PICK_UP, SERVER_MOVE, SERVER_PICK_UP, SERVER_MOVE,
           SERVER_PICK_UP, SERVER_TURN_RIGHT, SERVER_MOVE, SERVER_TURN_RIGHT],
          reads := reads + 60 } := by
  simp [search_outer, mbind, mret, stepPos, dirDelta, turnLeftDir, turnRightDir,
        UP, DOWN, LEFT, RIGHT, Prod.mk.injEq, -Prod.mk_zero_zero, -Prod.mk_one_one, List.append_assoc]
  rw [sweep_row1]
  simp [search_outer, mbind, mret, stepPos, dirDelta, turnLeftDir, turnRightDir,
        UP, DOWN, LEFT, RIGHT, Prod.mk.injEq, -Prod.mk_zero_zero, -Prod.mk_one_one, List.append_assoc]
  rw [robot_turn_right 4 (2, 2) (4) [] _ _ _ _ (by decide) (by decide) (by decide) (by decide)]
  simp [search_outer, mbind, mret, stepPos, dirDelta, turnLeftDir, turnRightDir,
        UP, DOWN, LEFT, RIGHT, Prod.mk.injEq, -Prod.mk_zero_zero, -Prod.mk_one_one, List.append_assoc]
  rw [robot_move 4 (2, 2) (-2) [] _ _ _ _ (by decide) (by decide) (by decide) (by decide) (by decide)]
  simp [search_outer, mbind, mret, stepPos, dirDelta, turnLeftDir, turnRightDir,
        UP, DOWN, LEFT, RIGHT, Prod.mk.injEq, -Prod.mk_zero_zero, -Prod.mk_one_one, List.append_assoc]
  rw [robot_turn_right 4 (2, 1) (-2) [] _ _ _ _ (by decide) (by decide) (by decide) (by decide)]
  simp [search_outer, mbind, mret, stepPos, dirDelta, turnLeftDir, turnRightDir,
        UP, DOWN, LEFT, RIGHT, Prod.mk.injEq, -Prod.mk_zero_zero, -Prod.mk_one_one, List.append_assoc]
  rw [sweep_row2]
  simp [search_outer, mbind, mret, stepPos, dirDelta, turnLeftDir, turnRightDir,
        UP, DOWN, LEFT, RIGHT, Prod.mk.injEq, -Prod.mk_zero_zero, -Prod.mk_one_one, List.append_assoc]
  rw [robot_turn_left 4 (-2, 1) (3) [] _ _ _ _ (by decide) (by decide) (by decide) (by decide)]
  simp [search_outer, mbind, mret, stepPos, dirDelta, turnLeftDir, turnRightDir,
        UP, DOWN, LEFT, RIGHT, Prod.mk.injEq, -Prod.mk_zero_zero, -Prod.mk_one_one, List.append_assoc]
  rw [robot_move 4 (-2, 1) (-2) [] _ _ _ _ (by decide) (by decide) (by decide) (by decide) (by decide)]
  simp [search_outer, mbind, mret, stepPos, dirDelta, turnLeftDir, turnRightDir,
        UP, DOWN, LEFT, RIGHT, Prod.mk.injEq, -Prod.mk_zero_zero, -Prod.mk_one_one, List.append_assoc]
  rw [robot_turn_left 4 (-2, 0) (-2) [] _ _ _ _ (by decide) (by decide) (by decide) (by decide)]
  simp [search_outer, mbind, mret, stepPos, dirDelta, turnLeftDir, turnRightDir,
        UP, DOWN, LEFT, RIGHT, Prod.mk.injEq, -Prod.mk_zero_zero, -Prod.mk_one_one, List.append_assoc]
  rw [sweep_row3]
  simp [search_outer, mbind, mret, stepPos, dirDelta, turnLeftDir, turnRightDir,
        UP, DOWN, LEFT, RIGHT, Prod.mk.injEq, -Prod.mk_zero_zero, -Prod.mk_one_one, List.append_assoc]
  rw [robot_turn_right 4 (2, 0) (4) [] _ _ _ _ (by decide) (by decide) (by decide) (by decide)]
  simp [search_outer, mbind, mret, stepPos, dirDelta, turnLeftDir, turnRightDir,
        UP, DOWN, LEFT, RIGHT, Prod.mk.injEq, -Prod.mk_zero_zero, -Prod.mk_one_one, List.append_assoc]
  rw [robot_move 4 (2, 0) (-2) [] _ _ _ _ (by decide) (by decide) (by decide) (by decide) (by decide)]
  simp [search_outer, mbind, mret, stepPos, dirDelta, turnLeftDir, turnRightDir,
        UP, DOWN, LEFT, RIGHT, Prod.mk.injEq, -Prod.mk_zero_zero, -Prod.mk_one_one, List.append_assoc]
  rw [robot_turn_right 4 (2, -1) (-2) [] _ _ _ _ (by decide) (by decide) (by decide) (by decide)]
  simp [search_outer, mbind, mret, stepPos, dirDelta, turnLeftDir, turnRightDir,
        UP, DOWN, LEFT, RIGHT, Prod.mk.injEq, -Prod.mk_zero_zero, -Prod.mk_one_one, List.append_assoc]
  rw [sweep_row4]
  simp [search_outer, mbind, mret, stepPos, dirDelta, turnLeftDir, turnRightDir,
        UP, DOWN, LEFT, RIGHT, Prod.mk.injEq, -Prod.mk_zero_zero, -Prod.mk_one_one, List.append_assoc]
  rw [robot_turn_left 4 (-2, -1) (3) [] _ _ _ _ (by decide) (by decide) (by decide) (by decide)]
  simp [search_outer, mbind, mret, stepPos, dirDelta, turnLeftDir, turnRightDir,
        UP, DOWN, LEFT, RIGHT, Prod.mk.injEq, -Prod.mk_zero_zero, -Prod.mk_one_one, List.append_assoc]
  rw [robot_move 4 (-2, -1) (-2) [] _ _ _ _ (by decide) (by decide) (by decide) (by decide) (by decide)]
  simp [search_outer, mbind, mret, stepPos, dirDelta, turnLeftDir, turnRightDir,
        UP, DOWN, LEFT, RIGHT, Prod.mk.injEq, -Prod.mk_zero_zero, -Prod.mk_one_one, List.append_assoc]
  rw [robot_turn_left 4 (-2, -2) (-2) [] _ _ _ _ (by decide) (by decide) (by decide) (by decide)]
  simp [search_outer, mbind, mret, stepPos, dirDelta, turnLeftDir, turnRightDir,
        UP, DOWN, LEFT, RIGHT, Prod.mk.injEq, -Prod.mk_zero_zero, -Prod.mk_one_one, List.append_assoc]
  rw [sweep_row5]
  simp [search_outer, mbind, mret, stepPos, dirDelta, turnLeftDir, turnRightDir,
        UP, DOWN, LEFT, RIGHT, Prod.mk.injEq, -Prod.mk_zero_zero, -Prod.mk_one_one, List.append_assoc]
  rw [robot_turn_right 4 (2, -2) (4) [] _ _ _ _ (by decide) (by decide) (by decide) (by decide)]
  simp [search_outer, mbind, mret, stepPos, dirDelta, turnLeftDir, turnRightDir,
        UP, DOWN, LEFT, RIGHT, Prod.mk.injEq, -Prod.mk_zero_zero, -Prod.mk_one_one, List.append_assoc]
  rw [robot_move 4 (2, -2) (-2) [] _ _ _ _ (by decide) (by decide) (by decide) (by decide) (by decide)]
  simp [search_outer, mbind, mret, stepPos, dirDelta, turnLeftDir, turnRightDir,
        UP, DOWN, LEFT, RIGHT, Prod.mk.injEq, -Prod.mk_zero_zero, -Prod.mk_one_one, List.append_assoc]
  rw [robot_turn_right 4 (2, -3) (-2) [] _ _ _ _ (by decide) (by decide) (by decide) (by decide)]
  simp [search_outer, mbind, mret, stepPos, dirDelta, turnLeftDir, turnRightDir,
        UP, DOWN, LEFT, RIGHT, Prod.mk.injEq, -Prod.mk_zero_zero, -Prod.mk_one_one, List.append_assoc]

/-- Full evaluation of the all-empty sweep started facing East. -/
theorem sweepEmpty_eval :
    sweepEmpty = Res.ok ()
      { buffer := [], conn := { pos := (2, -3), dir := 3, cells := [], pending := [],
                                trail := sweepTrail, picked := serpCells },
        sent := [SERVER_PICK_UP, SERVER_MOVE, SERVER_PICK_UP, SERVER_MOVE,
           SERVER_PICK_UP, SERVER_MOVE, SERVER_PICK_UP, SERVER_MOVE,
           SERVER_PICK_UP, SERVER_TURN_RIGHT, SERVER_MOVE, SERVER_TURN_RIGHT,
           SERVER_PICK_UP, SERVER_MOVE, SERVER_PICK_UP, SERVER_MOVE,
           SERVER_PICK_UP, SERVER_MOVE, SERVER_PICK_UP, SERVER_MOVE,
           SERVER_PICK_UP, SERVER_TURN_LEFT, SERVER_MOVE, SERVER_TURN_LEFT,
           SERVER_PICK_UP, SERVER_MOVE, SERVER_PICK_UP, SERVER_MOVE,
           SERVER_PICK_UP, SERVER_MOVE, SERVER_PICK_UP, SERVER_MOVE,
           SERVER_PICK_UP, SERVER_TURN_RIGHT, SERVER_MOVE, SERVER_TURN_RIGHT,
           SERVER_PICK_UP, SERVER_MOVE, SERVER_PICK_UP, SERVER_MOVE,
           SERVER_PICK_UP, SERVER_MOVE, SERVER_PICK_UP, SERVER_MOVE,
           SERVER_PICK_UP, SERVER_TURN_LEFT, SERVER_MOVE, SERVER_TURN_LEFT,
           SERVER_PICK_UP, SERVER_MOVE, SERVER_PICK_UP, SERVER_MOVE,
           SERVER_PICK_UP, SERVER_MOVE, SERVER_PICK_UP, SERVER_MOVE,
           SERVER_PICK_UP, SERVER_TURN_RIGHT, SERVER_MOVE, SERVER_TURN_RIGHT],
        reads := 60 } := by
  rw [sweepEmpty]
  simp [search_square, robotSt, turn_to_direction, mbind, mret, stepPos, dirDelta,
        turnLeftDir, turnRightDir, UP, DOWN, LEFT, RIGHT, DESTINATION_SQUARE, Prod.mk.injEq,
        -Prod.mk_zero_zero, -Prod.mk_one_one, List.append_assoc]
  rw [sweep_core]
  simp [search_square, robotSt, turn_to_direction, mbind, mret, stepPos, dirDelta,
        turnLeftDir, turnRightDir, UP, DOWN, LEFT, RIGHT, DESTINATION_SQUARE, Prod.mk.injEq,
        -Prod.mk_zero_zero, -Prod.mk_one_one, List.append_assoc]
  simp [sweepTrail, serpCells]

/-- Full evaluation of the all-empty sweep started facing North: one
initial right turn, then the same serpentine. -/
theorem sweepEmptyUp_eval :
    sweepEmptyUp = Res.ok ()
      { buffer := [], conn := { pos := (2, -3), dir := 3, cells := [], pending := [],
                                trail := sweepTrail, picked := serpCells },
        sent := SERVER_TURN_RIGHT :: [SERVER_PICK_UP, SERVER_MOVE, SERVER_PICK_UP, SERVER_MOVE,
           SERVER_PICK_UP, SERVER_MOVE, SERVER_PICK_UP, SERVER_MOVE,
           SERVER_PICK_UP, SERVER_TURN_RIGHT, SERVER_MOVE, SERVER_TURN_RIGHT,
           SERVER_PICK_UP, SERVER_MOVE, SERVER_PICK_UP, SERVER_MOVE,
           SERVER_PICK_UP, SERVER_MOVE, SERVER_PICK_UP, SERVER_MOVE,
           SERVER_PICK_UP, SERVER_TURN_LEFT, SERVER_MOVE, SERVER_TURN_LEFT,
           SERVER_PICK_UP, SERVER_MOVE, SERVER_PICK_UP, SERVER_MOVE,
           SERVER_PICK_UP, SERVER_MOVE, SERVER_PICK_UP, SERVER_MOVE,
           SERVER_PICK_UP, SERVER_TURN_RIGHT, SERVER_MOVE, SERVER_TURN_RIGHT,
           SERVER_PICK_UP, SERVER_MOVE, SERVER_PICK_UP, SERVER_MOVE,
           SERVER_PICK_UP, SERVER_MOVE, SERVER_PICK_UP, SERVER_MOVE,
           SERVER_PICK_UP, SERVER_TURN_LEFT, SERVER_MOVE, SERVER_TURN_LEFT,
           SERVER_PICK_UP, SERVER_MOVE, SERVER_PICK_UP, SERVER_MOVE,
           SERVER_PICK_UP, SERVER_MOVE, SERVER_PICK_UP, SERVER_MOVE,
           SERVER_PICK_UP, SERVER_TURN_RIGHT, SERVER_MOVE, SERVER_TURN_RIGHT],
        reads := 61 } := by
  rw [sweepEmptyUp]
  simp [search_square, robotSt, turn_to_direction, mbind, mret, stepPos, dirDelta,
        turnLeftDir, turnRightDir, UP, DOWN, LEFT, RIGHT, DESTINATION_SQUARE, Prod.mk.injEq,
        -Prod.mk_zero_zero, -Prod.mk_one_one, List.append_assoc]
  rw [robot_turn_right 4 (-2, 2) (-1) [] _ _ _ _ (by decide) (by decide) (by decide) (by decide)]
  simp [search_square, robotSt, turn_to_direction, mbind, mret, stepPos, dirDelta,
        turnLeftDir, turnRightDir, UP, DOWN, LEFT, RIGHT, DESTINATION_SQUARE, Prod.mk.injEq,
        -Prod.mk_zero_zero, -Prod.mk_one_one, List.append_assoc]
  rw [sweep_core]
  simp [search_square, robotSt, turn_to_direction, mbind, mret, stepPos, dirDelta,
        turnLeftDir, turnRightDir, UP, DOWN, LEFT, RIGHT, DESTINATION_SQUARE, Prod.mk.injEq,
        -Prod.mk_zero_zero, -Prod.mk_one_one, List.append_assoc]
  simp [sweepTrail, serpCells]

/-- Full evaluation of the sweep against a robot with a message at
`(0, 2)`: three pickups, then logout. -/
theorem sweepFound_eval :
    sweepFound = Res.ok ()
      { buffer := [], conn := { pos := (0, 2), dir := 4, cells := msgCells, pending := [],
                                trail := [(-1, 2), (0, 2)],
                                picked := [(-2, 2), (-1, 2), (0, 2)] },
        sent := [SERVER_PICK_UP, SERVER_MOVE, SERVER_PICK_UP, SERVER_MOVE,
                 SERVER_PICK_UP, SERVER_LOGOUT],
        reads := 5 } := by
  rw [sweepFound]
  simp [search_square, robotSt, turn_to_direction, mbind, mret, stepPos, dirDelta,
        turnLeftDir, turnRightDir, UP, DOWN, LEFT, RIGHT, DESTINATION_SQUARE, Prod.mk.injEq,
        -Prod.mk_zero_zero, -Prod.mk_one_one, List.append_assoc]
  simp [search_outer, mbind, mret]
  rw [sweep_row_found]
  simp [search_square, robotSt, turn_to_direction, mbind, mret, stepPos, dirDelta,
        turnLeftDir, turnRightDir, UP, DOWN, LEFT, RIGHT, DESTINATION_SQUARE, Prod.mk.injEq,
        -Prod.mk_zero_zero, -Prod.mk_one_one, List.append_assoc]

/-- Routing run started at the origin `(0, 0)`, robot and tracked direction
facing West (as after a westward probe move). -/
def reachFromOrigin : Res Robot (Int × (Int × Int)) :=
  reach_loop robotNet 12 LEFT (0, 0) (robotSt (0, 0) LEFT [])

/-- Routing run started at `(2, -1)` facing West (spec scenario 6). -/
def reachFromScenario : Res Robot (Int × (Int × Int)) :=
  reach_loop robotNet 12 LEFT (2, -1) (robotSt (2, -1) LEFT [])

/-- Evaluation of the routing loop started exactly at the origin (0, 0): the code moves the robot west to x = -2 and then north to (-2, 2). -/
theorem reachOrigin_eval :
    reachFromOrigin
      = Res.ok ((-1 : Int), ((-2 : Int), (2 : Int)))
        { buffer := [], conn := { pos := (-2, 2), dir := -1, cells := [], pending := [],
                                  trail := [(-1, 0), (-2, 0), (-2, 1), (-2, 2)], picked := [] },
          sent := [SERVER_MOVE, SERVER_MOVE, SERVER_TURN_RIGHT, SERVER_MOVE, SERVER_MOVE],
          reads := 5 } := by
  simp only [reachFromOrigin, robotSt]
  simp [reach_loop, turn_to_direction, get_direction_to_dest, mbind, mret,
        stepPos, dirDelta, turnLeftDir, turnRightDir,
        UP, DOWN, LEFT, RIGHT, DESTINATION_SQUARE, Prod.mk.injEq, -Prod.mk_zero_zero, -Prod.mk_one_one,
        List.append_assoc]
  rw [robot_move 9 (0, 0) (3) [] _ _ _ _ (by decide) (by decide) (by decide) (by decide) (by decide)]
  simp [reach_loop, turn_to_direction, get_direction_to_dest, mbind, mret,
        stepPos, dirDelta, turnLeftDir, turnRightDir,
        UP, DOWN, LEFT, RIGHT, DESTINATION_SQUARE, Prod.mk.injEq, -Prod.mk_zero_zero, -Prod.mk_one_one,
        List.append_assoc]
  rw [robot_move 8 (-1, 0) (3) [] _ _ _ _ (by decide) (by decide) (by decide) (by decide) (by decide)]
  simp [reach_loop, turn_to_direction, get_direction_to_dest, mbind, mret,
        stepPos, dirDelta, turnLeftDir, turnRightDir,
        UP, DOWN, LEFT, RIGHT, DESTINATION_SQUARE, Prod.mk.injEq, -Prod.mk_zero_zero, -Prod.mk_one_one,
        List.append_assoc]
  rw [robot_turn_right 7 (-2, 0) (3) [] _ _ _ _ (by decide) (by decide) (by decide) (by decide)]
  simp [reach_loop, turn_to_direction, get_direction_to_dest, mbind, mret,
        stepPos, dirDelta, turnLeftDir, turnRightDir,
        UP, DOWN, LEFT, RIGHT, DESTINATION_SQUARE, Prod.mk.injEq, -Prod.mk_zero_zero, -Prod.mk_one_one,
        List.append_assoc]
  rw [robot_move 7 (-2, 0) (-1) [] _ _ _ _ (by decide) (by decide) (by decide) (by decide) (by decide)]
  simp [reach_loop, turn_to_direction, get_direction_to_dest, mbind, mret,
        stepPos, dirDelta, turnLeftDir, turnRightDir,
        UP, DOWN, LEFT, RIGHT, DESTINATION_SQUARE, Prod.mk.injEq, -Prod.mk_zero_zero, -Prod.mk_one_one,
        List.append_assoc]
  rw [robot_move 6 (-2, 1) (-1) [] _ _ _ _ (by decide) (by decide) (by decide) (by decide) (by decide)]
  simp [reach_loop, turn_to_direction, get_direction_to_dest, mbind, mret,
        stepPos, dirDelta, turnLeftDir, turnRightDir,
        UP, DOWN, LEFT, RIGHT, DESTINATION_SQUARE, Prod.mk.injEq, -Prod.mk_zero_zero, -Prod.mk_one_one,
        List.append_assoc]

set_option maxHeartbeats 1000000 in
/-- Evaluation of the routing loop started at (2, -1) facing West (spec
scenario 6): west until x = -2, then north until y = 2. -/
theorem reachScenario_eval :
    reachFromScenario
      = Res.ok ((-1 : Int), ((-2 : Int), (2 : Int)))
        { buffer := [], conn := { pos := (-2, 2), dir := -1, cells := [], pending := [],
                                  trail := [(1, -1), (0, -1), (-1, -1), (-2, -1), (-2, 0), (-2, 1), (-2, 2)], picked := [] },
          sent := [SERVER_MOVE, SERVER_MOVE, SERVER_MOVE, SERVER_MOVE, SERVER_TURN_RIGHT, SERVER_MOVE, SERVER_MOVE, SERVER_MOVE],
          reads := 8 } := by
  simp only [reachFromScenario, robotSt]
  simp [reach_loop, turn_to_direction, get_direction_to_dest, mbind, mret,
        stepPos, dirDelta, turnLeftDir, turnRightDir,
        UP, DOWN, LEFT, RIGHT, DESTINATION_SQUARE, Prod.mk.injEq, -Prod.mk_zero_zero, -Prod.mk_one_one,
        List.append_assoc]
  rw [robot_move 9 (2, -1) (3) [] _ _ _ _ (by decide) (by decide) (by decide) (by decide) (by decide)]
  simp [reach_loop, turn_to_direction, get_direction_to_dest, mbind, mret,
        stepPos, dirDelta, turnLeftDir, turnRightDir,
        UP, DOWN, LEFT, RIGHT, DESTINATION_SQUARE, Prod.mk.injEq, -Prod.mk_zero_zero, -Prod.mk_one_one,
        List.append_assoc]
  rw [robot_move 8 (1, -1) (3) [] _ _ _ _ (by decide) (by decide) (by decide) (by decide) (by decide)]
  simp [reach_loop, turn_to_direction, get_direction_to_dest, mbind, mret,
        stepPos, dirDelta, turnLeftDir, turnRightDir,
        UP, DOWN, LEFT, RIGHT, DESTINATION_SQUARE, Prod.mk.injEq, -Prod.mk_zero_zero, -Prod.mk_one_one,
        List.append_assoc]
  rw [robot_move 7 (0, -1) (3) [] _ _ _ _ (by decide) (by decide) (by decide) (by decide) (by decide)]
  simp [reach_loop, turn_to_direction, get_direction_to_dest, mbind, mret,
        stepPos, dirDelta, turnLeftDir, turnRightDir,
        UP, DOWN, LEFT, RIGHT, DESTINATION_SQUARE, Prod.mk.injEq, -Prod.mk_zero_zero, -Prod.mk_one_one,
        List.append_assoc]
  rw [robot_move 6 (-1, -1) (3) [] _ _ _ _ (by decide) (by decide) (by decide) (by decide) (by decide)]
  simp [reach_loop, turn_to_direction, get_direction_to_dest, mbind, mret,
        stepPos, dirDelta, turnLeftDir, turnRightDir,
        UP, DOWN, LEFT, RIGHT, DESTINATION_SQUARE, Prod.mk.injEq, -Prod.mk_zero_zero, -Prod.mk_one_one,
        List.append_assoc]
  rw [robot_turn_right 5 (-2, -1) (3) [] _ _ _ _ (by decide) (by decide) (by decide) (by decide)]
  simp [reach_loop, turn_to_direction, get_direction_to_dest, mbind, mret,
        stepPos, dirDelta, turnLeftDir, turnRightDir,
        UP, DOWN, LEFT, RIGHT, DESTINATION_SQUARE, Prod.mk.injEq, -Prod.mk_zero_zero, -Prod.mk_one_one,
        List.append_assoc]
  rw [robot_move 5 (-2, -1) (-1) [] _ _ _ _ (by decide) (by decide) (by decide) (by decide) (by decide)]
  simp [reach_loop, turn_to_direction, get_direction_to_dest, mbind, mret,
        stepPos, dirDelta, turnLeftDir, turnRightDir,
        UP, DOWN, LEFT, RIGHT, DESTINATION_SQUARE, Prod.mk.injEq, -Prod.mk_zero_zero, -Prod.mk_one_one,
        List.append_assoc]
  rw [robot_move 4 (-2, 0) (-1) [] _ _ _ _ (by decide) (by decide) (by decide) (by decide) (by decide)]
  simp [reach_loop, turn_to_direction, get_direction_to_dest, mbind, mret,
        stepPos, dirDelta, turnLeftDir, turnRightDir,
        UP, DOWN, LEFT, RIGHT, DESTINATION_SQUARE, Prod.mk.injEq, -Prod.mk_zero_zero, -Prod.mk_one_one,
        List.append_assoc]
  rw [robot_move 3 (-2, 1) (-1) [] _ _ _ _ (by decide) (by decide) (by decide) (by decide) (by decide)]
  simp [reach_loop, turn_to_direction, get_direction_to_dest, mbind, mret,
        stepPos, dirDelta, turnLeftDir, turnRightDir,
        UP, DOWN, LEFT, RIGHT, DESTINATION_SQUARE, Prod.mk.injEq, -Prod.mk_zero_zero, -Prod.mk_one_one,
        List.append_assoc]



/-- Claim C4, counterexample.  In the all-empty sweep the robot moves onto
`(2, -3)`, one cell south of the region: the set of cells the sweeper moves
onto is not contained in the 25 cells of `[-2..2] × [-2..2]`. -/
theorem C4_counterexample :
    ((2 : Int), (-3 : Int)) ∈ (resSt sweepEmpty).conn.trail ∧ ¬inRegion (2, -3) := by
  rw [sweepEmpty_eval]
  exact ⟨by decide, by decide⟩

/-- Claim C4, amended: `105 GET MESSAGE` is issued at exactly the 25
distinct cells of `[-2..2] × [-2..2]`, in serpentine order, whether the
sweep starts facing East or North; the sweep stops at the first non-empty
pickup (logging out after three pickups when the message sits at `(0, 2)`);
and every motion except the last stays inside the region — but after the
last empty row the unconditional row transition moves the robot onto
`(2, -3)`, one cell outside the region. -/
theorem C4_amended :
    (resSt sweepEmpty).conn.picked = serpCells ∧
    serpCells.Nodup ∧
    (∀ p ∈ serpCells, inRegion p) ∧
    (∀ p ∈ regionList, p ∈ serpCells) ∧
    (∀ p, p ∈ regionList ↔ inRegion p) ∧
    (resSt sweepEmpty).conn.trail = sweepTrail ∧
    (∀ p ∈ sweepTrail.dropLast, inRegion p) ∧
    sweepTrail.getLast? = some (2, -3) ∧ ¬inRegion (2, -3) ∧
    (resSt sweepEmptyUp).conn.picked = serpCells ∧
    (resSt sweepEmptyUp).conn.trail = sweepTrail ∧
    (resSt sweepFound).conn.picked = [(-2, 2), (-1, 2), (0, 2)] ∧
    (resSt sweepFound).sent.getLast? = some SERVER_LOGOUT := by
  rw [sweepEmpty_eval, sweepEmptyUp_eval, sweepFound_eval]
  refine ⟨rfl, by decide, by decide, by decide, ?_, rfl, by decide,
          rfl, by decide, rfl, rfl, rfl, rfl⟩
  intro p
  constructor
  · intro h
    have hall : ∀ q ∈ regionList, inRegion q := by decide
    exact hall p h
  · intro h
    obtain ⟨x, y⟩ := p
    obtain ⟨h1, h2, h3, h4⟩ := h
    simp only at h1 h2 h3 h4
    interval_cases x <;> interval_cases y <;> decide

/-! ### Claim C5 -/

/-- The C5 counterexample stream: an 11-character username. -/
def longUser : List (List Char) := ["aaaaaaaaaaa\x07\x08".data]

/-- Claim C5, counterexample.  The username cap in the code is
`CLIENT_USERNAME_MAX_LENGTH = 12`, not 20: an 11-character username (well
within the claimed content bound of 18) is rejected with a syntax fault and
`301 SYNTAX ERROR`. -/
theorem C5_counterexample :
    ("aaaaaaaaaaa".data : List Char).length = 11 ∧ (11 : Nat) ≤ 18 ∧
    CLIENT_USERNAME_MAX_LENGTH = 12 ∧
    runSession listNet 8 longUser = ([SERVER_SYNTAX_ERROR], Exit.normal) := by
  exact ⟨by decide, by decide, by decide, by decide⟩

/-- Claim C5, amended: the handshake reads the username with cap
`CLIENT_USERNAME_MAX_LENGTH = 12` bytes including the terminator: content
length at most 10 is accepted by the framing layer, content length 11 or
more triggers a syntax fault (whose handler then sends `301 SYNTAX ERROR`,
as the counterexample run shows). -/
theorem C5_amended (fuel : Nat) (u : List Char)
    (h1 : hasTerm u = false) (h2 : u ≠ CLIENT_RECHARGING) :
    (u.length ≤ 10 →
      get_message listNet (fuel + 2) CLIENT_USERNAME_MAX_LENGTH (chunkSt [u ++ TERMINATOR])
        = Res.ok u { buffer := [], conn := [], sent := [], reads := 1 }) ∧
    (11 ≤ u.length →
      get_message listNet (fuel + 2) CLIENT_USERNAME_MAX_LENGTH (chunkSt [u ++ TERMINATOR])
        = Res.err PyErr.syntaxError { buffer := [], conn := [], sent := [], reads := 1 }) ∧
    CLIENT_USERNAME_MAX_LENGTH = 12 := by
  refine ⟨?_, ?_, rfl⟩
  · intro h
    have g := gm_delivers listNet fuel CLIENT_USERNAME_MAX_LENGTH u
        [u ++ TERMINATOR] [] [] 0 rfl h1 h2
        (by simp only [CLIENT_USERNAME_MAX_LENGTH]; omega) (by decide)
    simpa [chunkSt] using g
  · intro h
    have g := gm_toolong listNet fuel CLIENT_USERNAME_MAX_LENGTH u
        [u ++ TERMINATOR] [] [] 0 rfl h1 h2
        (by simp only [CLIENT_USERNAME_MAX_LENGTH]; omega) (by decide)
    simpa [chunkSt] using g

/-- Witness for C5_amended: the three-character username `abc` is delivered. -/
theorem C5_witness :
    get_message listNet (0 + 2) CLIENT_USERNAME_MAX_LENGTH (chunkSt [("abc".data) ++ TERMINATOR])
      = Res.ok ("abc".data) { buffer := [], conn := [], sent := [], reads := 1 } :=
  (C5_amended 0 ("abc".data) (by decide) (by decide)).1 (by decide)

/-! ### Claim C6 -/

/-- Claim C6, counterexample.  The claim says the routing loop targets the
destination centre `(0, 0)` and moves east or west only until `x = 0`.
Starting the loop exactly at `(0, 0)`, the code keeps moving: it drives the
robot west to `x = -2` and then north to `y = 2`, ending at
`DESTINATION_SQUARE = (-2, 2) ≠ (0, 0)`. -/
theorem C6_counterexample :
    resVal reachFromOrigin = some (UP, DESTINATION_SQUARE) ∧
    (resSt reachFromOrigin).conn.trail = [(-1, 0), (-2, 0), (-2, 1), (-2, 2)] ∧
    DESTINATION_SQUARE ≠ ((0, 0) : Int × Int) := by
  rw [reachOrigin_eval]
  exact ⟨by decide, by decide, by decide⟩

/-- Claim C6, amended: the routing loop targets `DESTINATION_SQUARE =
(-2, 2)`, x-axis first: while `x ≠ -2` it steers east (`x < -2`) or west
(`x > -2`), and only once `x = -2` does it steer north or south toward
`y = 2`; the concrete run from `(2, -1)` moves west to `x = -2` and then
north to `(-2, 2)`. -/
theorem C6_amended (current : Int × Int) :
    (current.1 > -2 → get_direction_to_dest current DESTINATION_SQUARE = LEFT) ∧
    (current.1 < -2 → get_direction_to_dest current DESTINATION_SQUARE = RIGHT) ∧
    (current.1 = -2 → current.2 < 2 → get_direction_to_dest current DESTINATION_SQUARE = UP) ∧
    (current.1 = -2 → current.2 > 2 → get_direction_to_dest current DESTINATION_SQUARE = DOWN) ∧
    resVal reachFromScenario = some (UP, DESTINATION_SQUARE) ∧
    (resSt reachFromScenario).conn.trail
      = [(1, -1), (0, -1), (-1, -1), (-2, -1), (-2, 0), (-2, 1), (-2, 2)] := by
  refine ⟨?_, ?_, ?_, ?_, ?_, ?_⟩
  · intro h
    simp [get_direction_to_dest, DESTINATION_SQUARE, UP, DOWN, LEFT, RIGHT]
    split_ifs <;> omega
  · intro h
    simp [get_direction_to_dest, DESTINATION_SQUARE, UP, DOWN, LEFT, RIGHT]
    split_ifs <;> omega
  · intro h h2
    simp [get_direction_to_dest, DESTINATION_SQUARE, UP, DOWN, LEFT, RIGHT]
    split_ifs <;> omega
  · intro h h2
    simp [get_direction_to_dest, DESTINATION_SQUARE, UP, DOWN, LEFT, RIGHT]
    split_ifs <;> omega
  · rw [reachScenario_eval]
    decide
  · rw [reachScenario_eval]
    decide

/-- Witness for C6_amended: from `(5, 5)` the first routing direction is
West. -/
theorem C6_witness :
    get_direction_to_dest (5, 5) DESTINATION_SQUARE = LEFT :=
  (C6_amended (5, 5)).1 (by decide)


/-! ### Claim C7 -/

/-- The C7 counterexample stream: username `a`, then the non-numeric
confirmation `abc` (no space character). -/
def confAbc : List (List Char) := ["a\x07\x08".data, "abc\x07\x08".data]

/-- Claim C7, counterexample.  On a non-numeric confirmation without a
space the code raises an uncaught `ValueError` from `int()`: the claimed
`301 SYNTAX ERROR` is never sent — the only sent message is the server
code, and the session dies on an unhandled exception. -/
theorem C7_counterexample :
    runSession listNet 8 confAbc = ([natChars 20549], Exit.unhandled PyErr.valueError) ∧
    SERVER_SYNTAX_ERROR ∉ (runSession listNet 8 confAbc).1 := by
  exact ⟨by decide, by decide⟩

/-- Claim C7, amended: a confirmation containing a space character raises a
syntax fault (and the session then ends with `301 SYNTAX ERROR`, as the
concrete run shows); but a confirmation that is non-numeric without
containing a space raises a `ValueError` that no handler catches, so the
connection is closed with no terminal message. -/
theorem C7_amended :
    (∀ s : List Char, s.contains ' ' = true →
      parse_number s = Except.error PyErr.syntaxError) ∧
    (∀ s : List Char, s.contains ' ' = false → pyInt s = none →
      parse_number s = Except.error PyErr.valueError) ∧
    runSession listNet 8 ["a\x07\x08".data, "1 2\x07\x08".data]
      = ([natChars 20549, SERVER_SYNTAX_ERROR], Exit.normal) := by
  refine ⟨?_, ?_, by decide⟩
  · intro s h
    have hm : ' ' ∈ s := by simpa using h
    simp [parse_number, hm]
  · intro s h1 h2
    have hm : ' ' ∉ s := by simpa using h1
    simp [parse_number, hm, h2]

/-- Witness for C7_amended: the confirmation `1 2` is a syntax fault. -/
theorem C7_witness :
    parse_number ("1 2".data) = Except.error PyErr.syntaxError :=
  C7_amended.1 ("1 2".data) (by decide)

/-! ### Claim C8 -/

/-- The turn table of the spec, expressed with the geometric quarter-turn
maps: no command on equal directions, two left turns on opposite ones, one
left turn when the target is 90° left of the current facing, one right turn
when it is 90° right. -/
def expectedTurnCmds (d t : Int) : List (List Char) :=
  if d = t then []
  else if t = turnLeftDir (turnLeftDir d) then [SERVER_TURN_LEFT, SERVER_TURN_LEFT]
  else if t = turnLeftDir d then [SERVER_TURN_LEFT]
  else [SERVER_TURN_RIGHT]

/-- Claim C8: for every pair of directions, `turn_to_direction` issues
exactly the commands of the spec table and returns the target as the new
tracked orientation. -/
theorem C8_turn_table (d t : Int)
    (hd : d ∈ [UP, DOWN, LEFT, RIGHT]) (ht : t ∈ [UP, DOWN, LEFT, RIGHT]) :
    resVal (turn_to_direction robotNet 3 d t (robotSt (0, 0) d [])) = some t ∧
    (resSt (turn_to_direction robotNet 3 d t (robotSt (0, 0) d []))).sent
      = expectedTurnCmds d t := by
  fin_cases hd <;> fin_cases ht <;> exact ⟨by decide, by decide⟩

/-- Witness for C8_turn_table: turning from North to South issues two left
turns. -/
theorem C8_witness :
    resVal (turn_to_direction robotNet 3 UP DOWN (robotSt (0, 0) UP [])) = some DOWN ∧
    (resSt (turn_to_direction robotNet 3 UP DOWN (robotSt (0, 0) UP []))).sent
      = expectedTurnCmds UP DOWN :=
  C8_turn_table UP DOWN (by decide) (by decide)

/-! ### Claim C9 -/

/-- Claim C9, counterexample.  A `FULL POWER` that arrives without a
preceding `RECHARGING` is returned to the caller by the framing reader,
contrary to the claim that callers never observe it. -/
theorem C9_counterexample :
    resVal (get_message listNet 6 CLIENT_OK_MAX_LENGTH (chunkSt ["FULL POWER\x07\x08".data]))
      = some CLIENT_FULL_POWER := by
  decide

/-- Claim C9, amended: the framing reader never returns `RECHARGING` to its
caller (for any inbound chunk sequence, fuel, cap and state); a `FULL
POWER` that terminates a recharge is consumed transparently (the concrete
run returns the following `OK 1 2`), but a `FULL POWER` arriving outside a
recharge is returned to the caller as an ordinary message. -/
theorem C9_amended :
    (∀ (fuel max : Nat) (st : St (List (List Char))) (msg : List Char)
       (st' : St (List (List Char))),
      get_message listNet fuel max st = Res.ok msg st' → msg ≠ CLIENT_RECHARGING) ∧
    resVal (get_message listNet 10 CLIENT_OK_MAX_LENGTH
        (chunkSt ["RECHARGING\x07\x08".data, "FULL POWER\x07\x08".data, "OK 1 2\x07\x08".data]))
      = some ("OK 1 2".data) := by
  exact ⟨fun fuel max st msg st' h => gm_never_recharging listNet fuel max st msg st' h,
         by decide⟩

/-- Witness for the universally quantified part of C9_amended. -/
theorem C9_witness : ("a".data : List Char) ≠ CLIENT_RECHARGING :=
  C9_amended.1 4 12 (chunkSt ["a\x07\x08".data]) ("a".data)
    { buffer := [], conn := [], sent := [], reads := 1 } (by decide)

/-! ### Claim C10 -/

/-- Claim C10: `parse_client_ok` either returns a pair of integers or
raises a syntax fault — no other exception escapes it — and position
reports whose three tokens are separated by arbitrary whitespace runs (for
example tabs) are accepted. -/
theorem C10_total_and_whitespace :
    (∀ s : List Char, (∃ a b : Int, parse_client_ok s = Except.ok (a, b)) ∨
      parse_client_ok s = Except.error PyErr.syntaxError) ∧
    parse_client_ok ("OK\t1\t2".data) = Except.ok (1, 2) := by
  constructor
  · intro s
    cases h : parse_client_ok_body s with
    | ok v => exact Or.inl ⟨v.1, v.2, by simp [parse_client_ok, h]⟩
    | error e => exact Or.inr (by simp [parse_client_ok, h])
  · rfl

end RobotServer
